/-
Verification of the Reality Check data-integrity validation engine.

This file gives a shallow embedding, in Lean 4, of the validation logic in
`scripts/validate.py` and `scripts/analysis_validator.py`:

* text is modelled as `List Char` (named `Str` below); Python string
  operations (`strip`, `startswith`, `endswith`, slicing, `split`) are
  translated to explicit list functions;
* the handful of regular expressions used by the validators are translated
  to executable matching functions; each translation is deterministic
  because every quantifier in the source patterns is followed by a
  character that cannot occur inside the quantified class, so greedy
  matching with backtracking collapses to a single pass (noted per
  definition);
* records loaded from the store are modelled as structures whose optional
  fields are `Option`-valued, mirroring `dict.get` semantics;
* Python floats are modelled as exact rationals (plus explicit
  infinity/NaN constructors where the float parser can produce them);
  the comparisons performed by the validators are order comparisons that
  floats decide exactly on the values in range.

Theorems at the end of the file settle the specification claims.
-/
import Mathlib

abbrev Str := List Char

/-- Convert a Lean string literal to the `List Char` text model. -/
def strL (s : String) : Str := s.data

/-- Python whitespace characters (`str.strip`, regex `\s`), ASCII range. -/
def isWsP (c : Char) : Bool :=
  c == ' ' || c == '\t' || c == '\n' || c == '\r' || c == '\x0b' || c == '\x0c'

def isAsciiUpper (c : Char) : Bool := 'A' ≤ c && c ≤ 'Z'

def isAsciiDigit (c : Char) : Bool := '0' ≤ c && c ≤ '9'

/-- `pat` is a prefix of `s` (Python `str.startswith`). -/
def lStarts : Str → Str → Bool
  | [], _ => true
  | _ :: _, [] => false
  | p :: ps, c :: cs => p == c && lStarts ps cs

/-- `pat` is a suffix of `s` (Python `str.endswith`). -/
def lEnds (pat s : Str) : Bool := lStarts pat.reverse s.reverse

/-- Python `str.strip()`: drop whitespace from both ends. -/
def pyStrip (s : Str) : Str :=
  ((s.dropWhile isWsP).reverse.dropWhile isWsP).reverse

/-- The wrapper markers tried, in order, by `_strip_simple_markdown_wrappers`
(`MARKDOWN_WRAPPER_MARKERS = ("**", "__", "`", "*", "_")`). -/
def markdownWrapperMarkers : List Str :=
  [['*', '*'], ['_', '_'], ['`'], ['*'], ['_']]

/-- One marker test from the loop body of `_strip_simple_markdown_wrappers`:
if `cleaned` starts and ends with `marker` and is strictly longer than twice
the marker, peel the marker off both ends (`cleaned[marker_len:-marker_len]`)
and strip the result. -/
def tryMarker (m s : Str) : Option Str :=
  if lStarts m s && lEnds m s && 2 * m.length < s.length then
    some (pyStrip ((s.drop m.length).take (s.length - 2 * m.length)))
  else
    none

/-- One iteration of the `while` loop of `_strip_simple_markdown_wrappers`:
the first applicable marker (in tuple order) is peeled; `none` means no
marker applied, i.e. the loop exits. -/
def stripWrappersStep (s : Str) : Option Str :=
  match tryMarker ['*', '*'] s with
  | some r => some r
  | none =>
    match tryMarker ['_', '_'] s with
    | some r => some r
    | none =>
      match tryMarker ['`'] s with
      | some r => some r
      | none =>
        match tryMarker ['*'] s with
        | some r => some r
        | none => tryMarker ['_'] s

theorem length_dropWhile_le (p : Char → Bool) (l : Str) :
    (l.dropWhile p).length ≤ l.length :=
  (List.dropWhile_suffix p).sublist.length_le

theorem pyStrip_length_le (s : Str) : (pyStrip s).length ≤ s.length := by
  unfold pyStrip
  have h1 := length_dropWhile_le isWsP s
  have h2 := length_dropWhile_le isWsP (s.dropWhile isWsP).reverse
  simp only [List.length_reverse] at *
  omega

theorem tryMarker_length_lt {m s r : Str} (hm : m ≠ []) (h : tryMarker m s = some r) :
    r.length < s.length := by
  have hml : 0 < m.length := List.length_pos.mpr hm
  unfold tryMarker at h
  split at h
  case isTrue hc =>
    have hlt : 2 * m.length < s.length := by
      simp only [Bool.and_eq_true, decide_eq_true_eq] at hc
      exact hc.2
    have hr : r = pyStrip ((s.drop m.length).take (s.length - 2 * m.length)) :=
      (Option.some.inj h).symm
    have h1 : ((s.drop m.length).take (s.length - 2 * m.length)).length ≤
        s.length - 2 * m.length := by
      simp [List.length_take]
    have h2 := pyStrip_length_le ((s.drop m.length).take (s.length - 2 * m.length))
    rw [hr]
    omega
  case isFalse => exact absurd h (by simp)

theorem stripWrappersStep_length_lt {s r : Str} (h : stripWrappersStep s = some r) :
    r.length < s.length := by
  unfold stripWrappersStep at h
  rcases h1 : tryMarker ['*', '*'] s with _ | r1
  · rw [h1] at h
    rcases h2 : tryMarker ['_', '_'] s with _ | r2
    · rw [h2] at h
      rcases h3 : tryMarker ['`'] s with _ | r3
      · rw [h3] at h
        rcases h4 : tryMarker ['*'] s with _ | r4
        · rw [h4] at h
          exact tryMarker_length_lt (by simp) h
        · rw [h4] at h
          cases h
          exact tryMarker_length_lt (by simp) h4
      · rw [h3] at h
        cases h
        exact tryMarker_length_lt (by simp) h3
    · rw [h2] at h
      cases h
      exact tryMarker_length_lt (by simp) h2
  · rw [h1] at h
    cases h
    exact tryMarker_length_lt (by simp) h1

/-- The `while` loop of `_strip_simple_markdown_wrappers`, with an explicit
iteration budget.  Running out of budget returns the current text, which by
`stripWrappersStep_length_lt` never happens when the budget exceeds the
length of the text (each applied marker strictly shrinks it). -/
def stripLoopF : Nat → Str → Str
  | 0, s => s
  | n + 1, s =>
    match stripWrappersStep s with
    | none => s
    | some r => stripLoopF n r

/-- The `while` loop of `_strip_simple_markdown_wrappers`: iterate
`stripWrappersStep` to exhaustion (a budget of `length + 1` suffices). -/
def stripLoop (s : Str) : Str := stripLoopF (s.length + 1) s

theorem stripLoopF_of_step_none {s : Str} (h : stripWrappersStep s = none) :
    ∀ n, stripLoopF n s = s := by
  intro n
  cases n with
  | zero => rfl
  | succ n => simp [stripLoopF, h]

theorem stripLoopF_of_step_some {s r : Str} (h : stripWrappersStep s = some r) (n : Nat) :
    stripLoopF (n + 1) s = stripLoopF n r := by
  simp [stripLoopF, h]

/-- Any budget larger than the length of the text yields the loop's true
fixed point: fuel is immaterial past that bound, i.e. the loop terminates. -/
theorem stripLoopF_fuel_irrelevant :
    ∀ (n : Nat) (s : Str), s.length < n → ∀ m, s.length < m → stripLoopF n s = stripLoopF m s := by
  intro n
  induction n with
  | zero => intro s h; omega
  | succ n ih =>
    intro s h m hm
    cases m with
    | zero => omega
    | succ m =>
      cases hs : stripWrappersStep s with
      | none => rw [stripLoopF_of_step_none hs, stripLoopF_of_step_none hs]
      | some r =>
        have hlt := stripWrappersStep_length_lt hs
        rw [stripLoopF_of_step_some hs, stripLoopF_of_step_some hs]
        exact ih r (by omega) m (by omega)

/-- The loop result is a genuine fixed point of the step function: the loop
exits as soon as no marker applies. -/
theorem stripLoop_fixed (s : Str) : stripWrappersStep (stripLoop s) = none := by
  suffices h : ∀ (n : Nat) (s : Str), s.length < n → stripWrappersStep (stripLoopF n s) = none by
    exact h (s.length + 1) s (by omega)
  intro n
  induction n with
  | zero => intro s h; omega
  | succ n ih =>
    intro s h
    cases hs : stripWrappersStep s with
    | none => rw [stripLoopF_of_step_none hs]; exact hs
    | some r =>
      have hlt := stripWrappersStep_length_lt hs
      rw [stripLoopF_of_step_some hs]
      cases n with
      | zero => omega
      | succ n => exact ih r (by omega)

/-- `_strip_simple_markdown_wrappers(text)`. -/
def stripSimpleMarkdownWrappers (text : Str) : Str :=
  stripLoop (pyStrip text)

/-- Consume exactly `n` regex `\d` digits, returning the rest. -/
def digitsN : Nat → Str → Option Str
  | 0, r => some r
  | _ + 1, [] => none
  | n + 1, c :: r => if isAsciiDigit c then digitsN n r else none

/-- Tail of the claim-ID patterns after the letter block: `-\d{4}-\d{3}`,
anchored at the end of the text. -/
def claimIdTail : Str → Bool
  | '-' :: r =>
    match digitsN 4 r with
    | some ('-' :: r2) =>
      match digitsN 3 r2 with
      | some [] => true
      | _ => false
    | _ => false
  | _ => false

/-- `BARE_CLAIM_ID_RE = ^([A-Z]+-\d{4}-\d{3})$`.  `[A-Z]+` is greedy and the
following character class (`-`, digits) is disjoint from `[A-Z]`, so the
letter block is exactly the maximal uppercase run. -/
def matchesBareClaimId (s : Str) : Bool :=
  let l := s.takeWhile isAsciiUpper
  !l.isEmpty && claimIdTail (s.dropWhile isAsciiUpper)

/-- Characters that can occur in a claim ID (`[A-Z]`, `\d`, `-`). -/
def idChar (c : Char) : Bool := isAsciiUpper c || isAsciiDigit c || c == '-'

/-- `[^)]+\)` anchored at the end: the text is `t ++ [cparen]` with `t`
non-empty and free of closing parentheses. -/
def linkTargetTail : Str → Bool
  | [] => false
  | [c] => c == ')'
  | c :: r => c != ')' && linkTargetTail r

/-- `[^)]+\)$`: at least one non-`)` character, then the final `)`. -/
def linkTarget : Str → Bool
  | [] => false
  | c :: r => c != ')' && linkTargetTail r

/-- `LINKED_CLAIM_ID_RE = ^\[([A-Z]+-\d{4}-\d{3})\]\(([^)]+)\)$` (the second
group is not captured in the source; the first is returned).  The captured ID
is the maximal run of ID characters after `[`: the regex ID sub-pattern can
neither stop earlier (its classes are disjoint from `]`) nor extend further. -/
def matchesLinkedClaimId (s : Str) : Option Str :=
  match s with
  | '[' :: r =>
    let idPart := r.takeWhile idChar
    match r.dropWhile idChar with
    | ']' :: '(' :: r2 =>
      if matchesBareClaimId idPart && linkTarget r2 then some idPart else none
    | _ => none
  | _ => none

/-- `extract_claim_id(cell_text)`: strip markdown wrappers, try the bare-ID
pattern, then the linked-ID pattern. -/
def extractClaimId (cellText : Str) : Option Str :=
  let text := stripSimpleMarkdownWrappers cellText
  if matchesBareClaimId text then some text
  else matchesLinkedClaimId text

example : extractClaimId (strL "TECH-2026-001") = some (strL "TECH-2026-001") := by decide
example : extractClaimId (strL "**TECH-2026-001**") = some (strL "TECH-2026-001") := by decide
example : extractClaimId (strL "`[TECH-2026-001](../r/TECH-2026-001.md)`") =
    some (strL "TECH-2026-001") := by decide
example : extractClaimId (strL "tech-2026-001") = none := by decide
example : extractClaimId (strL "[TECH-2026-001]()") = none := by decide

/-- Python `str.lower()` (ASCII case mapping suffices for the validator's
inputs). -/
def pyLower (s : Str) : Str := s.map Char.toLower

/-- Python `str.upper()`. -/
def pyUpper (s : Str) : Str := s.map Char.toUpper

/-- `_normalize_status(status)`: strip markdown wrappers, delete every
backtick and asterisk (`re.sub(r"[`*]", "", ...)`), strip, lowercase, and
unwrap one enclosing bracket pair when the text is at least 3 long. -/
def normalizeStatus (status : Str) : Str :=
  let cleaned := stripSimpleMarkdownWrappers status
  let cleaned := pyLower (pyStrip (cleaned.filter fun c => !(c == '`' || c == '*')))
  if lStarts ['['] cleaned && lEnds [']'] cleaned && 3 ≤ cleaned.length then
    pyStrip ((cleaned.drop 1).take (cleaned.length - 2))
  else cleaned

/-- `_is_crux_value(value)`: delete backticks, asterisks and whitespace
(`re.sub(r"[`*\s]", "", ...)`), uppercase, compare with `"Y"`. -/
def isCruxValue (value : Str) : Bool :=
  pyUpper (value.filter fun c => !(c == '`' || c == '*' || isWsP c)) == ['Y']

/-- `_normalize_claim_type(claim_type)`: strip markdown wrappers, delete all
whitespace (`re.sub(r"\s+", "", ...)`), uppercase, and unwrap one enclosing
bracket pair when the text is at least 3 long. -/
def normalizeClaimType (claimType : Str) : Str :=
  let cleaned := stripSimpleMarkdownWrappers claimType
  let cleaned := pyUpper (cleaned.filter fun c => !isWsP c)
  if lStarts ['['] cleaned && lEnds [']'] cleaned && 3 ≤ cleaned.length then
    (cleaned.drop 1).take (cleaned.length - 2)
  else cleaned

example : normalizeStatus (strL "**[OK]**") = strL "ok" := by decide
example : normalizeStatus (strL " `Pending` ") = strL "pending" := by decide
example : isCruxValue (strL "`y` ") = true := by decide
example : isCruxValue (strL "N") = false := by decide
example : normalizeClaimType (strL "`[f]`") = strL "F" := by decide

/-- Python `text.split(sep)` for a single-character separator (used as
`line.split('|')` and `content.split('\n')`). -/
def pySplitChar (sep : Char) (s : Str) : List Str :=
  match s with
  | [] => [[]]
  | c :: r =>
    let rest := pySplitChar sep r
    if c == sep then [] :: rest
    else
      match rest with
      | [] => [[c]]
      | g :: gs => (c :: g) :: gs

example : pySplitChar '|' (strL "| a | b |") =
    [strL "", strL " a ", strL " b ", strL ""] := by decide
example : pySplitChar '|' (strL "") = [strL ""] := by decide

/-- Python `str.strip(chars)` for a single strip character (used as
`.strip("|")`). -/
def pyStripChar (t : Char) (s : Str) : Str :=
  ((s.dropWhile (· == t)).reverse.dropWhile (· == t)).reverse

/-- `_split_md_table_row(line)`: `[]` unless the stripped line starts with a
pipe; otherwise strip the line, shave outer pipes, split on `|` and strip
each cell. -/
def splitMdTableRow (line : Str) : List Str :=
  if lStarts ['|'] (pyStrip line) then
    (pySplitChar '|' (pyStripChar '|' (pyStrip line))).map pyStrip
  else []

/-- `_is_table_separator_row(cells)`: non-empty, and every cell is blank
after deleting `:` and `-` and stripping. -/
def isTableSeparatorRow (cells : List Str) : Bool :=
  !cells.isEmpty &&
  cells.all fun cell => (pyStrip (cell.filter fun c => !(c == ':' || c == '-'))).isEmpty

example : splitMdTableRow (strL "| Claim ID | Status |") =
    [strL "Claim ID", strL "Status"] := by decide
example : isTableSeparatorRow [strL "---", strL ":--:"] = true := by decide
example : isTableSeparatorRow [strL "--x"] = false := by decide

/-- Consume a literal case-insensitively (regex `IGNORECASE` literal text),
returning the rest of the text on success. -/
def ciMatchLit : Str → Str → Option Str
  | [], s => some s
  | _ :: _, [] => none
  | p :: ps, c :: cs => if p.toLower == c.toLower then ciMatchLit ps cs else none

/-- Regex `\s*`: maximal whitespace run.  Used where the following pattern
item starts with a non-whitespace character, so greedy matching is exact. -/
def dropWsL (s : Str) : Str := s.dropWhile isWsP

/-- Greedy `\s*$` of a `MULTILINE` pattern: consume as much whitespace as
possible subject to ending at the end of the text or just before a newline;
returns the text from the match end (`none` when `$` cannot be placed). -/
def dollarGreedy : Str → Option Str
  | [] => some []
  | c :: r =>
    if isWsP c then
      match dollarGreedy r with
      | some res => some res
      | none => if c == '\n' then some (c :: r) else none
    else if c == '\n' then some (c :: r) else none

/-- Attempt `^\s*{header}\s*$` at a line-start position: `\s*`, the header
literal (case-insensitive), then greedy `\s*$`.  Returns the text after the
match end.  Both headers used start with `#`, which is not whitespace, so
the leading `\s*` is exact. -/
def headerMatchEnd (header s : Str) : Option Str :=
  match ciMatchLit header (dropWsL s) with
  | none => none
  | some rest => dollarGreedy rest

/-- Advance past the next newline (the next `^` anchor position of a
`MULTILINE` search); `none` when no newline remains. -/
def dropToAfterNewline : Str → Option Str
  | [] => none
  | c :: r => if c == '\n' then some r else dropToAfterNewline r

theorem dropToAfterNewline_length_lt :
    ∀ {s r : Str}, dropToAfterNewline s = some r → r.length < s.length := by
  intro s
  induction s with
  | nil => intro r h; cases h
  | cons c cs ih =>
    intro r h
    simp only [dropToAfterNewline] at h
    split at h
    · cases h; simp
    · have := ih h
      simp only [List.length_cons]
      omega

/-- `re.search` of the section-header pattern: try each `MULTILINE` `^`
anchor (start of text and after each newline) left to right; on a hit,
return the text after the match end.  Budgeted recursion: the budget
`length + 1` dominates the number of anchors. -/
def findHeaderFromF (header : Str) : Nat → Str → Option Str
  | 0, _ => none
  | n + 1, s =>
    match headerMatchEnd header s with
    | some rest => some rest
    | none =>
      match dropToAfterNewline s with
      | some r => findHeaderFromF header n r
      | none => none

def findHeaderFrom (header s : Str) : Option Str :=
  findHeaderFromF header (s.length + 1) s

/-- Does `^\s*#{2,6}\s+` match at this anchor?  `\s*` then a maximal run of
`#` of length 2-6 (a longer run cannot match: every shorter choice leaves a
`#` where `\s+` needs whitespace) then at least one whitespace character. -/
def headingAt (s : Str) : Bool :=
  let r := dropWsL s
  let hl := (r.takeWhile fun c => c == '#').length
  decide (2 ≤ hl) && decide (hl ≤ 6) &&
  (match (r.drop hl).head? with
   | some c => isWsP c
   | none => false)

/-- Split off one line, keeping its trailing newline with the prefix. -/
def takeLine : Str → (Str × Str)
  | [] => ([], [])
  | c :: r =>
    if c == '\n' then ([c], r)
    else
      match takeLine r with
      | (pre, rest) => (c :: pre, rest)

/-- Prefix of the text up to `next_heading.start()` — the first `MULTILINE`
anchor from which `^\s*#{2,6}\s+` matches — or the whole text when there is
no further heading.  Budget `length + 1` dominates the number of anchors. -/
def takeUntilNextHeadingF : Nat → Str → Str
  | 0, s => s
  | n + 1, s =>
    if headingAt s then []
    else
      match s with
      | [] => []
      | _ =>
        match takeLine s with
        | (pre, rest) => pre ++ takeUntilNextHeadingF n rest

def takeUntilNextHeading (s : Str) : Str := takeUntilNextHeadingF (s.length + 1) s

/-- `_extract_section_content(content, section_header)`: find the header
line, return the text between the match end and the next heading anchor. -/
def extractSectionContent (content sectionHeader : Str) : Str :=
  match findHeaderFrom sectionHeader content with
  | none => []
  | some rest => takeUntilNextHeading rest

example : extractSectionContent
    (strL "x\n## Metadata\nbody line\n\n## Next\nmore") (strL "## Metadata") =
    strL "\nbody line\n" := by decide
example : extractSectionContent (strL "no header here") (strL "## Metadata") = [] := by decide
example : extractSectionContent (strL "## Metadata\n## Next\n") (strL "## Metadata") = [] := by
  decide

/-- Regex `\*{0,2}`: up to two leading asterisks.  In both REVIEWED patterns
the next item starts with a non-asterisk, so consuming the maximum (capped
at 2) is exact. -/
def consumeStars2 : Str → Str
  | '*' :: '*' :: r => r
  | '*' :: r => r
  | r => r

/-- Regex `\[?` directly before the literal `REVIEWED`: consume a bracket if
present (exact because `[` is not `R`/`r`). -/
def consumeLBracketOpt : Str → Str
  | '[' :: r => r
  | r => r

/-- Regex `\]?`: consume a closing bracket if present. -/
def consumeRBracketOpt : Str → Str
  | ']' :: r => r
  | r => r

/-- `\*{0,2}Rigor Level\*{0,2}\s*:\s*\[?REVIEWED\]?` at this position
(`IGNORECASE`). -/
def rigorFieldAt (s : Str) : Bool :=
  match ciMatchLit (strL "Rigor Level") (consumeStars2 s) with
  | none => false
  | some r1 =>
    match dropWsL (consumeStars2 r1) with
    | ':' :: r2 => (ciMatchLit (strL "REVIEWED") (consumeLBracketOpt (dropWsL r2))).isSome
    | _ => false

/-- `\|\s*\*{0,2}Rigor Level\*{0,2}\s*\|\s*\[?REVIEWED\]?\s*\|` at this
position (`IGNORECASE`). -/
def rigorTableAt (s : Str) : Bool :=
  match s with
  | '|' :: r0 =>
    match ciMatchLit (strL "Rigor Level") (consumeStars2 (dropWsL r0)) with
    | none => false
    | some r1 =>
      match dropWsL (consumeStars2 r1) with
      | '|' :: r2 =>
        match ciMatchLit (strL "REVIEWED") (consumeLBracketOpt (dropWsL r2)) with
        | none => false
        | some r3 =>
          match dropWsL (consumeRBracketOpt r3) with
          | '|' :: _ => true
          | _ => false
      | _ => false
  | _ => false

/-- `re.search`: does the matcher succeed at some position of the text? -/
def searchAt (p : Str → Bool) : Str → Bool
  | [] => p []
  | c :: r => p (c :: r) || searchAt p r

/-- `_is_reviewed_analysis(content)`: search the Metadata section body — or,
when that body is missing or empty, the whole document — for either
Rigor-Level-REVIEWED pattern. -/
def isReviewedAnalysis (content : Str) : Bool :=
  let metadataContent := extractSectionContent content (strL "## Metadata")
  let searchSpace := if metadataContent.isEmpty then content else metadataContent
  searchAt rigorTableAt searchSpace || searchAt rigorFieldAt searchSpace

/-- Python `str.splitlines()` restricted to `\n`, `\r\n` and `\r` breaks
(the line boundaries occurring in markdown documents). -/
def pySplitlines : Str → List Str
  | [] => []
  | '\r' :: '\n' :: r => [] :: pySplitlines r
  | '\n' :: r => [] :: pySplitlines r
  | '\r' :: r => [] :: pySplitlines r
  | c :: r =>
    match pySplitlines r with
    | [] => [[c]]
    | l :: ls => (c :: l) :: ls

example : pySplitlines (strL "a\nb\n") = [strL "a", strL "b"] := by decide
example : pySplitlines (strL "\n") = [strL ""] := by decide
example : pySplitlines (strL "") = [] := by decide

/-- Data rows of `_parse_first_markdown_table`: rows are collected until a
line fails to split as a table row; separator-shaped rows are skipped. -/
def collectTableRows : List Str → List (List Str)
  | [] => []
  | line :: rest =>
    match splitMdTableRow line with
    | [] => []
    | cells =>
      (if isTableSeparatorRow cells then [] else [cells]) ++ collectTableRows rest

/-- `_parse_first_markdown_table(section_content)` given its split lines:
the first adjacent pair (non-empty header cells, separator row) starts the
table. -/
def parseFirstMarkdownTable : List Str → (List Str × List (List Str))
  | [] => ([], [])
  | [_] => ([], [])
  | l1 :: l2 :: rest =>
    let headerCells := splitMdTableRow l1
    if !headerCells.isEmpty && isTableSeparatorRow (splitMdTableRow l2) then
      (headerCells, collectTableRows rest)
    else
      parseFirstMarkdownTable (l2 :: rest)

/-- Whitespace-run collapsing of `re.sub(r"\s+", " ", ...)`. -/
def collapseWsGo : Bool → Str → Str
  | _, [] => []
  | prevWs, c :: r =>
    if isWsP c then
      if prevWs then collapseWsGo true r else ' ' :: collapseWsGo true r
    else c :: collapseWsGo false r

/-- `_normalize_column_name(name)`: strip, lowercase, collapse whitespace
runs to single spaces. -/
def normalizeColName (name : Str) : Str :=
  collapseWsGo false (pyLower (pyStrip name))

/-- Index assigned to `name` by the `{_normalize_column_name(h): idx}`
dictionary comprehension: the **last** header position with that normalized
name (later duplicates overwrite earlier ones). -/
def colLastIdxGo (name : Str) : Nat → List Str → Option Nat
  | _, [] => none
  | i, h :: hs =>
    match colLastIdxGo name (i + 1) hs with
    | some j => some j
    | none => if normalizeColName h == name then some i else none

/-- `_find_column_index(column_map, *candidates)`: first candidate present
in the column map. -/
def findColumnIndex (headers : List Str) : List Str → Option Nat
  | [] => none
  | c :: cs =>
    match colLastIdxGo c 0 headers with
    | some i => some i
    | none => findColumnIndex headers cs

/-- Python `", ".join(items)` and friends. -/
def joinSep (sep : Str) : List Str → Str
  | [] => []
  | [x] => x
  | x :: xs => x ++ sep ++ joinSep sep xs

/-- A parsed row of the Stage 2 factual-verification table. -/
structure Stage2Row where
  claimId : Str
  claim : Str
  crux : Str
  sourceSays : Str
  actual : Str
  externalSource : Str
  searchNotes : Str
  status : Str
deriving DecidableEq

/-- The local `cell(row_cells, index)` helper of
`_extract_stage2_factual_rows`: empty for an absent column or a short row,
otherwise the stripped cell. -/
def cellAt (rowCells : List Str) : Option Nat → Str
  | none => []
  | some i => if i < rowCells.length then pyStrip (rowCells.getD i []) else []

/-- `_extract_stage2_factual_rows(content)`: rows of the first table of the
`### Key Factual Claims Verified` section plus the
missing-required-columns warning. -/
def extractStage2FactualRows (content : Str) : List Stage2Row × List Str :=
  let sectionContent := extractSectionContent content (strL "### Key Factual Claims Verified")
  if sectionContent.isEmpty then ([], [])
  else
    match parseFirstMarkdownTable (pySplitlines sectionContent) with
    | (headers, rows) =>
      if headers.isEmpty then ([], [])
      else
        let claimIdIdx := findColumnIndex headers [strL "claim id", strL "id"]
        let claimIdx := findColumnIndex headers [strL "claim (paraphrased)", strL "claim"]
        let cruxIdx := findColumnIndex headers [strL "crux?"]
        let sourceSaysIdx := findColumnIndex headers [strL "source says"]
        let actualIdx := findColumnIndex headers [strL "actual"]
        let externalSourceIdx :=
          findColumnIndex headers [strL "external source", strL "verification source"]
        let searchNotesIdx := findColumnIndex headers [strL "search notes", strL "notes"]
        let statusIdx := findColumnIndex headers [strL "status"]
        let missingRequired :=
          (if claimIdIdx.isNone then [strL "Claim ID"] else []) ++
          (if claimIdx.isNone then [strL "Claim (paraphrased)"] else []) ++
          (if cruxIdx.isNone then [strL "Crux?"] else []) ++
          (if sourceSaysIdx.isNone then [strL "Source Says"] else []) ++
          (if actualIdx.isNone then [strL "Actual"] else []) ++
          (if externalSourceIdx.isNone then [strL "External Source"] else []) ++
          (if searchNotesIdx.isNone then [strL "Search Notes"] else []) ++
          (if statusIdx.isNone then [strL "Status"] else [])
        let warnings :=
          if missingRequired.isEmpty then []
          else
            [strL "Key Factual Claims Verified table is missing required columns for factual verification gating: "
              ++ joinSep (strL ", ") missingRequired]
        let extracted := rows.map fun rowCells =>
          { claimId := cellAt rowCells claimIdIdx
            claim := cellAt rowCells claimIdx
            crux := cellAt rowCells cruxIdx
            sourceSays := cellAt rowCells sourceSaysIdx
            actual := cellAt rowCells actualIdx
            externalSource := cellAt rowCells externalSourceIdx
            searchNotes := cellAt rowCells searchNotesIdx
            status := cellAt rowCells statusIdx : Stage2Row }
        (extracted, warnings)

/-- Result of Python `float(str)`: a rounded IEEE double, modelled as the
exact decimal value (the validators only order-compare these values, and no
claim settled here depends on double rounding), or an infinity or NaN. -/
inductive PyFloat where
  | num (q : ℚ)
  | inf (neg : Bool)
  | nan
deriving DecidableEq

def digitVal (c : Char) : Nat := c.toNat - '0'.toNat

/-- Continuation of a digit run: more digits, or a single underscore that
must be followed by a digit (Python numeric-literal underscore rule). -/
def digitsUCont : Str → (List Nat × Str)
  | [] => ([], [])
  | '_' :: r =>
    match r with
    | c2 :: r2 =>
      if isAsciiDigit c2 then
        match digitsUCont r2 with
        | (ds, rest) => (digitVal c2 :: ds, rest)
      else ([], '_' :: c2 :: r2)
    | [] => ([], ['_'])
  | c :: r =>
    if isAsciiDigit c then
      match digitsUCont r with
      | (ds, rest) => (digitVal c :: ds, rest)
    else ([], c :: r)

/-- Consume a Python numeric-literal digit run: digits with single
underscores allowed between digits (`1_000`), returning the digit values
and the rest. -/
def digitsU : Str → (List Nat × Str)
  | [] => ([], [])
  | c :: r =>
    if isAsciiDigit c then
      match digitsUCont r with
      | (ds, rest) => (digitVal c :: ds, rest)
    else ([], c :: r)

def natOfDigits (ds : List Nat) : Nat := ds.foldl (fun a d => 10 * a + d) 0

/-- Decimal mantissa value `ipart.fpart`. -/
def mantissaVal (ipart fpart : List Nat) : ℚ :=
  (natOfDigits ipart : ℚ) + (natOfDigits fpart : ℚ) / ((10 : ℚ) ^ fpart.length)

def applyExp (m : ℚ) (eneg : Bool) (e : Nat) : ℚ :=
  if eneg then m / (10 : ℚ) ^ e else m * (10 : ℚ) ^ e

def parseExpDigits (ipart fpart : List Nat) (eneg : Bool) (r : Str) : Option ℚ :=
  match digitsU r with
  | (eds, rest) =>
    if eds.isEmpty || !rest.isEmpty then none
    else some (applyExp (mantissaVal ipart fpart) eneg (natOfDigits eds))

def parseExp (ipart fpart : List Nat) : Str → Option ℚ
  | '+' :: r => parseExpDigits ipart fpart false r
  | '-' :: r => parseExpDigits ipart fpart true r
  | r => parseExpDigits ipart fpart false r

def parseWithExp (ipart fpart : List Nat) : Str → Option ℚ
  | [] => some (mantissaVal ipart fpart)
  | 'e' :: r2 => parseExp ipart fpart r2
  | 'E' :: r2 => parseExp ipart fpart r2
  | _ => none

/-- Unsigned Python float literal: `digits [. digits] [exp]` or
`. digits [exp]`, requiring at least one mantissa digit and full
consumption of the text. -/
def parseFloatMagnitude (s : Str) : Option ℚ :=
  match digitsU s with
  | (ipart, r1) =>
    match r1 with
    | '.' :: r2 =>
      match digitsU r2 with
      | (fpart, r3) =>
        if ipart.isEmpty && fpart.isEmpty then none
        else parseWithExp ipart fpart r3
    | _ =>
      if ipart.isEmpty then none
      else parseWithExp ipart [] r1

/-- Python `float(text)`: strip whitespace, optional sign, then an
infinity/NaN keyword or a decimal literal; `none` models `ValueError`. -/
def pyFloat? (s : Str) : Option PyFloat :=
  let t := pyStrip s
  let signed : Bool × Str :=
    match t with
    | '+' :: r => (false, r)
    | '-' :: r => (true, r)
    | r => (false, r)
  match signed with
  | (neg, u) =>
    if pyLower u == strL "inf" || pyLower u == strL "infinity" then some (.inf neg)
    else if pyLower u == strL "nan" then some .nan
    else
      match parseFloatMagnitude u with
      | some q => some (.num (if neg then -q else q))
      | none => none

/-- `x >= 0.7` on the float model (`NaN` compares false; the literal `0.7`
is modelled by the exact rational, see `PyFloat`). -/
def pyFloatGe (x : PyFloat) (q : ℚ) : Bool :=
  match x with
  | .num v => q ≤ v
  | .inf neg => !neg
  | .nan => false


example : pyFloat? (strL "0.85") = some (.num (mantissaVal [0] [8, 5])) := by rfl
example : mantissaVal [0] [8, 5] = 17/20 := by norm_num [mantissaVal, natOfDigits]
example : (pyFloat? (strL "1_0.5e-1")).isSome = true := by decide
example : pyFloat? (strL " -inf ") = some (.inf true) := by decide
example : pyFloat? (strL "NaN") = some .nan := by decide
example : pyFloat? (strL "1__0") = none := by decide
example : (pyFloat? (strL "1.")).isSome = true := by decide
example : (pyFloat? (strL ".5")).isSome = true := by decide
example : pyFloat? (strL ".") = none := by decide
example : pyFloat? (strL "1e") = none := by decide
example : pyFloat? (strL "0.8 x") = none := by decide
example : pyFloat? (strL "75") = some (.num (mantissaVal [7, 5] [])) := by rfl

/-- `\|\s*Claim ID\s*\|` at this position (`IGNORECASE`) — the tail of the
Key Claims header pattern after its `.*`. -/
def pipeClaimIdAt (s : Str) : Bool :=
  match s with
  | '|' :: r =>
    match ciMatchLit (strL "Claim ID") (dropWsL r) with
    | some r2 =>
      match dropWsL r2 with
      | '|' :: _ => true
      | _ => false
    | none => false
  | _ => false

/-- `re.search(r"^\|\s*#\s*\|.*\|\s*Claim ID\s*\|", line, IGNORECASE)`:
the anchored `\|\s*#\s*\|` prefix, then (since `.*` cannot cross a newline
and lines contain none) any later occurrence of `\|\s*Claim ID\s*\|`. -/
def keyClaimsHeaderTest (line : Str) : Bool :=
  match line with
  | '|' :: r =>
    match dropWsL r with
    | '#' :: r2 =>
      match dropWsL r2 with
      | '|' :: r3 => searchAt pipeClaimIdAt r3
      | _ => false
    | _ => false
  | _ => false

/-- A parsed row of the Key Claims table
(`_extract_key_claim_rows` output). -/
structure KeyClaim where
  claimId : Str
  claimType : Str
  credence : PyFloat
deriving DecidableEq

/-- The data-row loop of `_extract_key_claim_rows`: stop at the first line
not starting (after strip) with a pipe; skip short rows, rows whose Claim
ID does not extract, and rows whose Credence cell does not parse as a
float. -/
def keyClaimRowsLoop (cidI tI crI : Nat) : List Str → List KeyClaim
  | [] => []
  | line :: rest =>
    if !(lStarts ['|'] (pyStrip line)) then []
    else
      let rowCells := splitMdTableRow line
      if rowCells.isEmpty || rowCells.length ≤ max cidI (max tI crI) then
        keyClaimRowsLoop cidI tI crI rest
      else
        match extractClaimId (rowCells.getD cidI []) with
        | none => keyClaimRowsLoop cidI tI crI rest
        | some cid =>
          match pyFloat? (pyStrip (rowCells.getD crI [])) with
          | none => keyClaimRowsLoop cidI tI crI rest
          | some cr =>
            { claimId := cid, claimType := pyStrip (rowCells.getD tI []),
              credence := cr : KeyClaim } :: keyClaimRowsLoop cidI tI crI rest

/-- Locate the Key Claims header line, returning the line list from it. -/
def findKeyClaimsTable : List Str → Option (List Str)
  | [] => none
  | line :: rest =>
    if keyClaimsHeaderTest line then some (line :: rest) else findKeyClaimsTable rest

/-- `_extract_key_claim_rows(content)`. -/
def extractKeyClaimRows (content : Str) : List KeyClaim :=
  match findKeyClaimsTable (pySplitlines content) with
  | none => []
  | some (headerLine :: sepLine :: firstData :: restData) =>
    if !isTableSeparatorRow (splitMdTableRow sepLine) then []
    else
      let headerCells := splitMdTableRow headerLine
      match findColumnIndex headerCells [strL "claim id"],
            findColumnIndex headerCells [strL "type"],
            findColumnIndex headerCells [strL "credence", strL "conf"] with
      | some cidI, some tI, some crI => keyClaimRowsLoop cidI tI crI (firstData :: restData)
      | _, _, _ => []
  | some _ => []

/-- `VALID_STAGE2_STATUSES = {"ok", "x", "nf", "blocked", "?"}`. -/
def validStage2Statuses : List Str :=
  [strL "ok", strL "x", strL "nf", strL "blocked", strL "?"]

/-- `status_by_claim_id.get(cid, "")`: the dictionary keeps, per extracted
claim ID, the normalized status of the **last** Stage-2 row bearing it. -/
def statusMapGet (rows : List Stage2Row) (cid : Str) : Str :=
  match rows.reverse.find? (fun row => extractClaimId row.claimId == some cid) with
  | some row => normalizeStatus row.status
  | none => []

def msgMissingCruxId : Str :=
  strL "Crux factual verification row is missing Claim ID (required for auditable gating)"

def msgUnknownStatus (cid disp : Str) : Str :=
  strL "Crux factual claim " ++ cid ++ strL " has unknown Status '" ++ disp ++
    strL "' — use one of: ok, x, nf, blocked, ?"

def msgNotAttempted (cid : Str) : Str :=
  strL "Analysis marked [REVIEWED] but crux factual claim " ++ cid ++
    strL " is not attempted (Status=?)"

def msgLacksNotes (cid : Str) : Str :=
  strL "Crux factual claim " ++ cid ++
    strL " is unresolved but lacks Search Notes documenting the attempt"

def msgLacksExternal (cid : Str) : Str :=
  strL "Crux factual claim " ++ cid ++
    strL " marked verified/refuted but lacks an External Source citation"

def msgNoCrux : Str :=
  strL "Analysis marked [REVIEWED] but Stage 2 does not identify any crux factual claim (Crux?=Y required)"

def msgHighCred (cid : Str) : Str :=
  strL "High-credence factual claim " ++ cid ++
    strL " is not verified/refuted — add citation/verification or lower credence"

/-- The status-dependent checks of the crux-row loop (the rules downstream
of the unknown-status check, applied to the possibly-reset status). -/
def cruxRowDownstream (reviewed : Bool) (claimIdDisp status searchNotes externalSource : Str) :
    List Str :=
  (if reviewed && status == strL "?" then [msgNotAttempted claimIdDisp] else []) ++
  (if reviewed && (status == strL "nf" || status == strL "blocked") && searchNotes.isEmpty then
    [msgLacksNotes claimIdDisp] else []) ++
  (if reviewed && (status == strL "ok" || status == strL "x") && externalSource.isEmpty then
    [msgLacksExternal claimIdDisp] else [])

/-- One iteration of the crux-row loop of
`validate_factual_verification_rigor`: the missing-Claim-ID check, the
unknown-status check (which on a reviewed analysis resets the status to
`?` — "fail closed"), then the downstream status rules. -/
def cruxRowWarnings (reviewed : Bool) (row : Stage2Row) : List Str :=
  let claimIdDisp :=
    match extractClaimId row.claimId with
    | some x => x
    | none => if (pyStrip row.claimId).isEmpty then strL "<unknown>" else pyStrip row.claimId
  let statusRaw := pyStrip row.status
  let status := normalizeStatus statusRaw
  let searchNotes := pyStrip row.searchNotes
  let externalSource := pyStrip row.externalSource
  (if (extractClaimId row.claimId).isNone then [msgMissingCruxId] else []) ++
  (if reviewed && !(validStage2Statuses.contains status) then
    msgUnknownStatus claimIdDisp (if statusRaw.isEmpty then strL "<blank>" else statusRaw) ::
      cruxRowDownstream reviewed claimIdDisp (strL "?") searchNotes externalSource
  else cruxRowDownstream reviewed claimIdDisp status searchNotes externalSource)

/-- The high-credence factual-claim scan at the end of
`validate_factual_verification_rigor` (the float literal `0.7` is the
exact rational here). -/
def highCredWarnings (stage2Rows : List Stage2Row) (keyClaims : List KeyClaim) : List Str :=
  keyClaims.flatMap fun claim =>
    let status := statusMapGet stage2Rows claim.claimId
    if normalizeClaimType claim.claimType == strL "F" && pyFloatGe claim.credence (7 / 10) &&
        !(status == strL "ok" || status == strL "x") then
      [msgHighCred claim.claimId]
    else []

/-- `validate_factual_verification_rigor(content)`. -/
def validateFactualVerificationRigor (content : Str) : List Str :=
  let reviewed := isReviewedAnalysis content
  match extractStage2FactualRows content with
  | (stage2Rows, stage2Warnings) =>
    let cruxRows := stage2Rows.filter fun row => isCruxValue row.crux
    stage2Warnings ++
    (if reviewed && cruxRows.isEmpty then [msgNoCrux] else []) ++
    cruxRows.flatMap (cruxRowWarnings reviewed) ++
    highCredWarnings stage2Rows (extractKeyClaimRows content)

/-- `VALID_DOMAINS` (from `db.py`). -/
def validDomains : List Str :=
  [strL "LABOR", strL "ECON", strL "GOV", strL "TECH", strL "SOC", strL "RESOURCE",
   strL "TRANS", strL "META", strL "GEO", strL "INST", strL "RISK"]

/-- `ALLOWED_CLAIM_TYPES`. -/
def allowedClaimTypes : List Str :=
  [strL "[F]", strL "[T]", strL "[H]", strL "[P]", strL "[A]", strL "[C]",
   strL "[S]", strL "[X]"]

/-- `ALLOWED_EVIDENCE_LEVELS = {f"E{i}" for i in range(1, 7)}`. -/
def allowedEvidenceLevels : List Str :=
  [strL "E1", strL "E2", strL "E3", strL "E4", strL "E5", strL "E6"]

/-- `ALLOWED_PREDICTION_STATUSES`. -/
def allowedPredictionStatuses : List Str :=
  [strL "[P+]", strL "[P~]", strL "[P→]", strL "[P?]", strL "[P←]", strL "[P!]",
   strL "[P-]", strL "[P∅]"]

/-- `ALLOWED_SOURCE_TYPES`. -/
def allowedSourceTypes : List Str :=
  [strL "PAPER", strL "BOOK", strL "REPORT", strL "ARTICLE", strL "BLOG", strL "SOCIAL",
   strL "CONVO", strL "INTERVIEW", strL "DATA", strL "FICTION", strL "KNOWLEDGE"]

/-- `VALID_ANALYSIS_STATUSES` (from `db.py`). -/
def validAnalysisStatuses : List Str :=
  [strL "started", strL "completed", strL "failed", strL "canceled", strL "draft"]

/-- `VALID_ANALYSIS_TOOLS` (from `db.py`). -/
def validAnalysisTools : List Str :=
  [strL "claude-code", strL "codex", strL "amp", strL "manual", strL "other"]

/-- A validation finding (`Finding` dataclass): level (`ERROR`/`WARN`),
machine-stable code, human-readable message. -/
structure Finding where
  level : Str
  code : Str
  message : Str
deriving DecidableEq

/-- `_is_probability(value)`: numeric and within `[0, 1]` (`none` models
both `None` and non-numeric values). -/
def isProbability : Option ℚ → Bool
  | none => false
  | some v => decide ((0 : ℚ) ≤ v) && decide (v ≤ (1 : ℚ))

/-- `^[A-Z]+-\d{4}-\d{3}$` (`CLAIM_ID_RE`) coincides with the bare-claim-ID
pattern of the analysis validator. -/
def matchesClaimIdRe (s : Str) : Bool := matchesBareClaimId s

/-- `CHAIN_ID_RE = ^CHAIN-\d{4}-\d{3}$`. -/
def matchesChainIdRe (s : Str) : Bool :=
  lStarts (strL "CHAIN") s && claimIdTail (s.drop 5)

/-- Decimal digits of a natural number (budgeted on the number itself,
which bounds the digit count). -/
def natDigitsF : Nat → Nat → Str
  | 0, _ => []
  | _ + 1, 0 => []
  | f + 1, n => natDigitsF f (n / 10) ++ [Char.ofNat (48 + n % 10)]

/-- Python `str(n)` for a natural number. -/
def natRepr (n : Nat) : Str := if n == 0 then ['0'] else natDigitsF (n + 1) n

example : natRepr 0 = strL "0" := by decide
example : natRepr 142 = strL "142" := by decide

def intRepr : Int → Str
  | .ofNat n => natRepr n
  | .negSucc n => '-' :: natRepr (n + 1)

/-- Rendering of a rational inside a message.  Python prints the float's
shortest decimal form; the embedding prints the exact fraction.  No claim
settled in this file inspects a message through this rendering. -/
def ratRepr (q : ℚ) : Str :=
  if q.den == 1 then intRepr q.num else intRepr q.num ++ '/' :: natRepr q.den

/-- f-string rendering of an optional string (Python prints `None`). -/
def optStrRepr : Option Str → Str
  | none => strL "None"
  | some s => s

/-- f-string rendering of an optional number. -/
def optRatRepr : Option ℚ → Str
  | none => strL "None"
  | some q => ratRepr q

/-- A claim record as loaded from the store (`dict.get` fields are
`Option`; `embedding` is the truthiness of the stored vector). -/
structure ClaimRec where
  domain : Option Str
  type : Option Str
  evidence_level : Option Str
  credence : Option ℚ
  text : Option Str
  source_ids : List Str
  supports : List Str
  contradicts : List Str
  depends_on : List Str
  modified_by : List Str
  part_of_chain : Option Str
  embedding : Bool
deriving DecidableEq

structure SourceRec where
  type : Option Str
  reliability : Option ℚ
  claims_extracted : List Str
deriving DecidableEq

structure ChainRec where
  credence : Option ℚ
  claims : List Str
deriving DecidableEq

structure PredictionRec where
  status : Option Str
  source_id : Option Str
deriving DecidableEq

/-- An analysis-log record.  `stages_json_valid` abstracts the
`json.loads(stages_json)` library call: `none` when the field is absent or
falsy, otherwise whether parsing succeeds. -/
structure AnalysisLogRec where
  id : Option Str
  status : Option Str
  tool : Option Str
  source_id : Option Str
  claims_extracted : List Str
  claims_updated : List Str
  stages_json_valid : Option Bool
  duration_seconds : Option ℚ
  cost_usd : Option ℚ
deriving DecidableEq

/-- The snapshot `validate_db` loads: the store's table names and the
per-table records keyed by primary id (the `{r["id"]: r}` dictionaries,
modelled as key-value lists; dictionaries have no duplicate keys). -/
structure DbSnapshot where
  tables : List Str
  claims : List (Str × ClaimRec)
  sources : List (Str × SourceRec)
  chains : List (Str × ChainRec)
  predictions : List (Str × PredictionRec)
  analysis_logs : List AnalysisLogRec
deriving DecidableEq

/-- Dictionary lookup on the key-value list model. -/
def dictGet (m : List (Str × α)) (k : Str) : Option α :=
  (m.find? fun p => p.1 == k).map Prod.snd

/-- Python string comparison (`<` by code points), lexicographic. -/
def strLt : Str → Str → Bool
  | [], [] => false
  | [], _ :: _ => true
  | _ :: _, [] => false
  | a :: as_, b :: bs => if a < b then true else if b < a then false else strLt as_ bs

def strLe (a b : Str) : Bool := !strLt b a

def insertSorted (x : Str) : List Str → List Str
  | [] => [x]
  | y :: ys => if strLe x y then x :: y :: ys else y :: insertSorted x ys

/-- Python `sorted(...)` on strings (stable; total order by code points). -/
def pySorted (l : List Str) : List Str := l.foldr insertSorted []

example : pySorted [strL "b", strL "a", strL "ab"] = [strL "a", strL "ab", strL "b"] := by decide

/-- `expected_tables` of `validate_db`. -/
def expectedTables : List Str :=
  [strL "claims", strL "sources", strL "chains", strL "predictions",
   strL "contradictions", strL "definitions"]

/-- `expected_tables - existing_tables` (set difference). -/
def missingTables (existing : List Str) : List Str :=
  expectedTables.filter fun t => !existing.contains t

def errF (code message : Str) : Finding := ⟨strL "ERROR", code, message⟩

def warnF (code message : Str) : Finding := ⟨strL "WARN", code, message⟩

/-- `claim_id.split("-")[0]`. -/
def domainFromId (claim_id : Str) : Str := (pySplitChar '-' claim_id).headD []

/-- Domain-segment-matches-field check. -/
def checkClaimDomainMismatch (claim_id : Str) (claim : ClaimRec) : List Finding :=
  if claim.domain != some (domainFromId claim_id) then
    [errF (strL "CLAIM_DOMAIN_MISMATCH")
      (claim_id ++ strL ": ID domain '" ++ domainFromId claim_id ++
        strL "' != field domain '" ++ optStrRepr claim.domain ++ strL "'")]
  else []

/-- Domain validity check (`None` is not a member of the valid set). -/
def checkClaimDomainValid (claim_id : Str) (claim : ClaimRec) : List Finding :=
  if !(match claim.domain with
       | some d => validDomains.contains d
       | none => false) then
    [errF (strL "CLAIM_DOMAIN_INVALID")
      (claim_id ++ strL ": Invalid domain '" ++ optStrRepr claim.domain ++ strL "'")]
  else []

def checkClaimTypeValid (claim_id : Str) (claim : ClaimRec) : List Finding :=
  if !(match claim.type with
       | some t => allowedClaimTypes.contains t
       | none => false) then
    [errF (strL "CLAIM_TYPE_INVALID")
      (claim_id ++ strL ": Invalid type '" ++ optStrRepr claim.type ++ strL "'")]
  else []

def checkClaimEvidenceValid (claim_id : Str) (claim : ClaimRec) : List Finding :=
  if !(match claim.evidence_level with
       | some e => allowedEvidenceLevels.contains e
       | none => false) then
    [errF (strL "CLAIM_EVIDENCE_INVALID")
      (claim_id ++ strL ": Invalid evidence_level '" ++ optStrRepr claim.evidence_level ++ strL "'")]
  else []

def checkClaimCredence (claim_id : Str) (claim : ClaimRec) : List Finding :=
  if !isProbability claim.credence then
    [errF (strL "CLAIM_CREDENCE_INVALID")
      (claim_id ++ strL ": Invalid credence '" ++ optRatRepr claim.credence ++ strL "'")]
  else []

/-- `not claim.get("text") or not claim["text"].strip()`. -/
def checkClaimText (claim_id : Str) (claim : ClaimRec) : List Finding :=
  if (match claim.text with
      | none => true
      | some t => t.isEmpty || (pyStrip t).isEmpty) then
    [errF (strL "CLAIM_TEXT_EMPTY") (claim_id ++ strL ": Missing or empty text")]
  else []

def checkClaimSources (sourceIds : List Str) (claim_id : Str) (claim : ClaimRec) : List Finding :=
  claim.source_ids.flatMap fun source_id =>
    if !sourceIds.contains source_id then
      [errF (strL "CLAIM_SOURCE_MISSING")
        (claim_id ++ strL ": References unknown source '" ++ source_id ++ strL "'")]
    else []

/-- The four relationship lists, in source order. -/
def relFields (claim : ClaimRec) : List (Str × List Str) :=
  [(strL "supports", claim.supports), (strL "contradicts", claim.contradicts),
   (strL "depends_on", claim.depends_on), (strL "modified_by", claim.modified_by)]

def checkClaimRels (claimIds : List Str) (claim_id : Str) (claim : ClaimRec) : List Finding :=
  (relFields claim).flatMap fun rel =>
    rel.2.flatMap fun target_id =>
      if !claimIds.contains target_id then
        [errF (strL "CLAIM_REL_MISSING")
          (claim_id ++ strL ": " ++ rel.1 ++ strL " references unknown claim '" ++
            target_id ++ strL "'")]
      else []

/-- `if chain_ref and chain_ref not in chain_ids` (an empty string is falsy). -/
def checkClaimChain (chainIds : List Str) (claim_id : Str) (claim : ClaimRec) : List Finding :=
  match claim.part_of_chain with
  | some chain_ref =>
    if !chain_ref.isEmpty && !chainIds.contains chain_ref then
      [errF (strL "CLAIM_CHAIN_MISSING")
        (claim_id ++ strL ": References unknown chain '" ++ chain_ref ++ strL "'")]
    else []
  | none => []

def checkClaimEmbedding (claim_id : Str) (claim : ClaimRec) : List Finding :=
  if !claim.embedding then
    [warnF (strL "CLAIM_NO_EMBEDDING") (claim_id ++ strL ": Missing embedding")]
  else []

/-- One iteration of the claims loop of `validate_db`: a malformed ID
produces the format error and `continue`s; otherwise the remaining checks
run in sequence, each appending its own findings. -/
def perClaimFindings (claimIds sourceIds chainIds : List Str) (claim_id : Str)
    (claim : ClaimRec) : List Finding :=
  if !matchesClaimIdRe claim_id then
    [errF (strL "CLAIM_ID_FORMAT") (strL "Invalid claim ID format: " ++ claim_id)]
  else
    checkClaimDomainMismatch claim_id claim ++
    checkClaimDomainValid claim_id claim ++
    checkClaimTypeValid claim_id claim ++
    checkClaimEvidenceValid claim_id claim ++
    checkClaimCredence claim_id claim ++
    checkClaimText claim_id claim ++
    checkClaimSources sourceIds claim_id claim ++
    checkClaimRels claimIds claim_id claim ++
    checkClaimChain chainIds claim_id claim ++
    checkClaimEmbedding claim_id claim

/-- One iteration of the sources loop of `validate_db`. -/
def perSourceFindings (claims : List (Str × ClaimRec)) (claimIds : List Str)
    (source_id : Str) (source : SourceRec) : List Finding :=
  (if !(match source.type with
        | some t => allowedSourceTypes.contains t
        | none => false) then
    [errF (strL "SOURCE_TYPE_INVALID")
      (source_id ++ strL ": Invalid type '" ++ optStrRepr source.type ++ strL "'")]
  else []) ++
  (if source.reliability.isSome && !isProbability source.reliability then
    [errF (strL "SOURCE_RELIABILITY_INVALID")
      (source_id ++ strL ": Invalid reliability '" ++ optRatRepr source.reliability ++ strL "'")]
  else []) ++
  (source.claims_extracted.flatMap fun claim_id =>
    if !claimIds.contains claim_id then
      [errF (strL "SOURCE_CLAIM_MISSING")
        (source_id ++ strL ": claims_extracted references unknown claim '" ++
          claim_id ++ strL "'")]
    else
      match dictGet claims claim_id with
      | some claim =>
        if !claim.source_ids.contains source_id then
          [errF (strL "SOURCE_BACKLINK_MISSING")
            (source_id ++ strL ": lists " ++ claim_id ++
              strL " but claim doesn't reference this source")]
        else []
      | none => []) ++
  (claims.flatMap fun p =>
    if p.2.source_ids.contains source_id && !source.claims_extracted.contains p.1 then
      [errF (strL "SOURCE_CLAIM_NOT_LISTED")
        (source_id ++ strL ": claim " ++ p.1 ++
          strL " cites this source but not in claims_extracted")]
    else [])

/-- One iteration of the chains loop of `validate_db` (the `0.01` MIN
tolerance is the exact rational). -/
def perChainFindings (claims : List (Str × ClaimRec)) (claimIds : List Str)
    (chain_id : Str) (chain : ChainRec) : List Finding :=
  if !matchesChainIdRe chain_id then
    [errF (strL "CHAIN_ID_FORMAT") (strL "Invalid chain ID format: " ++ chain_id)]
  else
    (if !isProbability chain.credence then
      [errF (strL "CHAIN_CREDENCE_INVALID")
        (chain_id ++ strL ": Invalid credence '" ++ optRatRepr chain.credence ++ strL "'")]
    else []) ++
    (chain.claims.flatMap fun claim_id =>
      if !claimIds.contains claim_id then
        [errF (strL "CHAIN_CLAIM_MISSING")
          (chain_id ++ strL ": References unknown claim '" ++ claim_id ++ strL "'")]
      else []) ++
    (match (chain.claims.filterMap (dictGet claims)).map (fun c => c.credence.getD 1) with
     | [] => []
     | c0 :: rest =>
       let min_credence := rest.foldl min c0
       let chain_credence := chain.credence.getD 0
       if min_credence + 1 / 100 < chain_credence then
         [warnF (strL "CHAIN_CREDENCE_EXCEEDS_MIN")
           (chain_id ++ strL ": Chain credence " ++ ratRepr chain_credence ++
             strL " > min claim credence " ++ ratRepr min_credence)]
       else [])

/-- One iteration of the predictions loop of `validate_db`. -/
def perPredictionFindings (claims : List (Str × ClaimRec)) (claimIds sourceIds : List Str)
    (claim_id : Str) (pred : PredictionRec) : List Finding :=
  (if !(match pred.status with
        | some st => allowedPredictionStatuses.contains st
        | none => false) then
    [errF (strL "PREDICTION_STATUS_INVALID")
      (strL "Prediction " ++ claim_id ++ strL ": Invalid status '" ++
        optStrRepr pred.status ++ strL "'")]
  else []) ++
  (if !claimIds.contains claim_id then
    [errF (strL "PREDICTION_CLAIM_MISSING")
      (strL "Prediction references unknown claim '" ++ claim_id ++ strL "'")]
  else
    match dictGet claims claim_id with
    | some claim =>
      if claim.type != some (strL "[P]") then
        [errF (strL "PREDICTION_CLAIM_NOT_P")
          (strL "Prediction " ++ claim_id ++ strL ": Claim is not type [P]")]
      else []
    | none => []) ++
  (match pred.source_id with
   | some source_id =>
     if !source_id.isEmpty && !sourceIds.contains source_id then
       [errF (strL "PREDICTION_SOURCE_MISSING")
         (strL "Prediction " ++ claim_id ++ strL ": References unknown source '" ++
           source_id ++ strL "'")]
     else []
   | none => [])

/-- The global prediction-completeness check of `validate_db` (source lines
282-287): the `[P]`-typed claim ids lacking prediction records, reported in
one bounded message. -/
def missingPredictions (claims : List (Str × ClaimRec))
    (predictions : List (Str × PredictionRec)) : List Str :=
  ((claims.filter fun p => p.2.type == some (strL "[P]")).map Prod.fst).filter
    fun cid => !(predictions.map Prod.fst).contains cid

def predictionsMissingFindings (claims : List (Str × ClaimRec))
    (predictions : List (Str × PredictionRec)) : List Finding :=
  let missing := missingPredictions claims predictions
  if missing.isEmpty then []
  else
    [errF (strL "PREDICTIONS_MISSING")
      (natRepr missing.length ++ strL " [P] claims without prediction records: " ++
        joinSep (strL ", ") ((pySorted missing).take 5) ++ strL "...")]

/-- One iteration of the analysis-logs loop of `validate_db`. -/
def perAnalysisLogFindings (claimIds sourceIds : List Str) (log : AnalysisLogRec) :
    List Finding :=
  let log_id := log.id.getD (strL "UNKNOWN")
  (if !(match log.status with
        | some st => validAnalysisStatuses.contains st
        | none => false) then
    [errF (strL "ANALYSIS_STATUS_INVALID")
      (log_id ++ strL ": Invalid status '" ++ optStrRepr log.status ++ strL "'")]
  else []) ++
  (if !(match log.tool with
        | some t => validAnalysisTools.contains t
        | none => false) then
    [errF (strL "ANALYSIS_TOOL_INVALID")
      (log_id ++ strL ": Invalid tool '" ++ optStrRepr log.tool ++ strL "'")]
  else []) ++
  (if log.status == some (strL "completed") then
    match log.source_id with
    | some source_id =>
      if !source_id.isEmpty && !sourceIds.contains source_id then
        [errF (strL "ANALYSIS_SOURCE_MISSING")
          (log_id ++ strL ": Completed analysis references unknown source '" ++
            source_id ++ strL "'")]
      else []
    | none => []
  else []) ++
  (if log.status != some (strL "draft") then
    (log.claims_extracted.flatMap fun claim_id =>
      if !claimIds.contains claim_id then
        [errF (strL "ANALYSIS_CLAIM_MISSING")
          (log_id ++ strL ": claims_extracted references unknown claim '" ++
            claim_id ++ strL "'")]
      else []) ++
    (log.claims_updated.flatMap fun claim_id =>
      if !claimIds.contains claim_id then
        [errF (strL "ANALYSIS_CLAIM_MISSING")
          (log_id ++ strL ": claims_updated references unknown claim '" ++
            claim_id ++ strL "'")]
      else [])
  else []) ++
  (match log.stages_json_valid with
   | some false =>
     [errF (strL "ANALYSIS_STAGES_INVALID_JSON")
       (log_id ++ strL ": stages_json is not valid JSON")]
   | _ => []) ++
  (match log.duration_seconds with
   | some d =>
     if d < 0 then
       [errF (strL "ANALYSIS_DURATION_NEGATIVE")
         (log_id ++ strL ": Negative duration_seconds: " ++ ratRepr d)]
     else []
   | none => []) ++
  (match log.cost_usd with
   | some c =>
     if c < 0 then
       [errF (strL "ANALYSIS_COST_NEGATIVE")
         (log_id ++ strL ": Negative cost_usd: " ++ ratRepr c)]
     else []
   | none => [])

/-- `validate_db` from the table-existence check on (store resolution and
connection, source lines 84-113, are boundary I/O converted into a single
finding before any snapshot exists and are outside the snapshot model). -/
def validateDb (snap : DbSnapshot) : List Finding :=
  let missing := missingTables snap.tables
  if !missing.isEmpty then
    [errF (strL "DB_TABLES_MISSING")
      (strL "Missing tables: " ++ joinSep (strL ", ") (pySorted missing))]
  else
    let claimIds := snap.claims.map Prod.fst
    let sourceIds := snap.sources.map Prod.fst
    let chainIds := snap.chains.map Prod.fst
    (snap.claims.flatMap fun p => perClaimFindings claimIds sourceIds chainIds p.1 p.2) ++
    (snap.sources.flatMap fun p => perSourceFindings snap.claims claimIds p.1 p.2) ++
    (snap.chains.flatMap fun p => perChainFindings snap.claims claimIds p.1 p.2) ++
    (snap.predictions.flatMap fun p =>
      perPredictionFindings snap.claims claimIds sourceIds p.1 p.2) ++
    predictionsMissingFindings snap.claims snap.predictions ++
    (if snap.tables.contains (strL "analysis_logs") then
      snap.analysis_logs.flatMap (perAnalysisLogFindings claimIds sourceIds)
    else [])

/-- Token of the content-search patterns of the structural validator: a
case-insensitive literal, `\s*`, or `.*` (which does not cross newlines). -/
inductive Tok where
  | lit (l : Str)
  | wsStar
  | dotStar
deriving DecidableEq

/-- `∃` split for a starred class: succeed at the current position or
consume one class character and continue (existence semantics of the
backtracking search). -/
def tryStar (p : Char → Bool) (k : Str → Bool) : Str → Bool
  | [] => k []
  | c :: r => k (c :: r) || (p c && tryStar p k r)

/-- Does the token sequence match a prefix of `s`? -/
def matchToks : List Tok → Str → Bool
  | [], _ => true
  | .lit l :: ts, s =>
    match ciMatchLit l s with
    | some r => matchToks ts r
    | none => false
  | .wsStar :: ts, s => tryStar isWsP (matchToks ts) s
  | .dotStar :: ts, s => tryStar (fun c => c != '\n') (matchToks ts) s

/-- `re.search` of a token pattern (`IGNORECASE`). -/
def searchToks (ts : List Tok) (content : Str) : Bool :=
  searchAt (matchToks ts) content

/-- Case-insensitive substring containment
(`re.search(re.escape(lit), content, re.IGNORECASE)`). -/
def ciContains (needle hay : Str) : Bool :=
  searchAt (fun s => (ciMatchLit needle s).isSome) hay

/-- Case-sensitive substring containment (plain `re.search` of a literal,
and Python `in`). -/
def containsSub (needle hay : Str) : Bool := searchAt (lStarts needle) hay

def tLit (s : String) : Tok := .lit (strL s)

/-- `FULL_PROFILE_REQUIRED["sections"]`. -/
def fullProfileSections : List Str :=
  [strL "## Metadata", strL "## Stage 1: Descriptive Analysis", strL "### Core Thesis",
   strL "### Key Claims", strL "### Argument Structure", strL "### Theoretical Lineage",
   strL "## Stage 2: Evaluative Analysis", strL "### Key Factual Claims Verified",
   strL "### Disconfirming Evidence Search", strL "### Internal Tensions",
   strL "### Persuasion Techniques", strL "### Unstated Assumptions",
   strL "## Stage 3: Dialectical Analysis", strL "### Steelmanned Argument",
   strL "### Strongest Counterarguments", strL "### Supporting Theories",
   strL "### Contradicting Theories", strL "### Claim Summary",
   strL "### Claims to Register"]

/-- `\|\s*#\s*\|.*Claim.*\|.*Claim ID.*\|.*Type.*\|.*Domain.*\|`. -/
def keyClaimsTablePat : List Tok :=
  [tLit "|", .wsStar, tLit "#", .wsStar, tLit "|", .dotStar, tLit "Claim", .dotStar,
   tLit "|", .dotStar, tLit "Claim ID", .dotStar, tLit "|", .dotStar, tLit "Type",
   .dotStar, tLit "|", .dotStar, tLit "Domain", .dotStar, tLit "|"]

/-- `\|\s*ID\s*\|.*Type.*\|.*Domain.*\|.*Evidence.*\|.*Credence.*\|`. -/
def claimSummaryTablePat : List Tok :=
  [tLit "|", .wsStar, tLit "ID", .wsStar, tLit "|", .dotStar, tLit "Type", .dotStar,
   tLit "|", .dotStar, tLit "Domain", .dotStar, tLit "|", .dotStar, tLit "Evidence",
   .dotStar, tLit "|", .dotStar, tLit "Credence", .dotStar, tLit "|"]

/-- `FULL_PROFILE_REQUIRED["tables"]`. -/
def fullProfileTables : List (List Tok × Str) :=
  [(keyClaimsTablePat, strL "Key Claims table"),
   (claimSummaryTablePat, strL "Claim Summary table")]

/-- `FULL_PROFILE_REQUIRED["elements"]` (each element is a list of regex
alternatives to search). -/
def fullProfileElements : List (List (List Tok) × Str) :=
  [([[tLit ">", .wsStar, tLit "**Claim types**:"]], strL "Claim types legend"),
   ([[tLit ">", .wsStar, tLit "**Evidence**:"]], strL "Evidence legend"),
   ([[tLit "```yaml", .wsStar, tLit "\nclaims:"]], strL "Claims YAML block"),
   ([[tLit "**Credence in Analysis**:"], [tLit "**Confidence in Analysis**:"]],
     strL "Credence in Analysis score")]

/-- `\*\*Analysis Depth\*\*.*quick`. -/
def analysisDepthQuickPat : List Tok :=
  [tLit "**Analysis Depth**", .dotStar, tLit "quick"]

/-- `QUICK_PROFILE_REQUIRED`. -/
def quickProfileSections : List Str :=
  [strL "## Metadata", strL "## Summary", strL "### Claim Summary",
   strL "### Claims to Register"]

def quickProfileTables : List (List Tok × Str) :=
  [(claimSummaryTablePat, strL "Claim Summary table")]

def quickProfileElements : List (List (List Tok) × Str) :=
  [([[tLit ">", .wsStar, tLit "**Claim types**:"]], strL "Claim types legend"),
   ([[tLit ">", .wsStar, tLit "**Evidence**:"]], strL "Evidence legend"),
   ([[tLit "```yaml", .wsStar, tLit "\nclaims:"]], strL "Claims YAML block"),
   ([analysisDepthQuickPat], strL "Analysis Depth: quick marker")]

/-- `FRAMEWORK_INDICATORS`. -/
def frameworkIndicators : List Str :=
  [strL "scripts/", strL "tests/", strL "integrations/", strL "methodology/"]

/-- `detect_profile(content)`. -/
def detectProfile (content : Str) : Str :=
  if searchToks analysisDepthQuickPat content then strL "quick" else strL "full"

/-- `check_framework_repo(path)` on the resolved path string: warn on the
first matching indicator. -/
def checkFrameworkRepo (pathStr : Str) : List Str :=
  match frameworkIndicators.find? (fun ind =>
      containsSub ('/' :: ind) pathStr && !containsSub (strL "/analysis/") pathStr) with
  | some ind =>
    [strL "Path may be in framework repo (contains '" ++ ind ++
      strL "'). Analysis files should be in the DATA repository."]
  | none => []

/-- `validate_sections(content, required_sections)`. -/
def validateSections (content : Str) (requiredSections : List Str) : List Str :=
  requiredSections.flatMap fun sec =>
    if !ciContains sec content then [strL "Missing section: " ++ sec] else []

/-- `validate_tables(content, required_tables)`. -/
def validateTables (content : Str) (requiredTables : List (List Tok × Str)) : List Str :=
  requiredTables.flatMap fun pat =>
    if !searchToks pat.1 content then [strL "Missing or malformed: " ++ pat.2] else []

/-- `validate_elements(content, required_elements)`. -/
def validateElements (content : Str) (requiredElements : List (List (List Tok) × Str)) :
    List Str :=
  requiredElements.flatMap fun pat =>
    if !pat.1.any (fun ts => searchToks ts content) then [strL "Missing: " ++ pat.2] else []

/-- Unanchored occurrence of `([A-Z]+)-(\d{4})-(\d{3})` at this position. -/
def bareIdOccursAt (s : Str) : Bool :=
  let l := s.takeWhile isAsciiUpper
  !l.isEmpty &&
  (match s.dropWhile isAsciiUpper with
   | '-' :: r1 =>
     match digitsN 4 r1 with
     | some ('-' :: r2) => (digitsN 3 r2).isSome
     | _ => false
   | _ => false)

/-- `validate_claim_ids(content)`. -/
def validateClaimIds (content : Str) : List Str :=
  (if !searchAt bareIdOccursAt content then
    [strL "No claim IDs found matching DOMAIN-YYYY-NNN format"]
  else []) ++
  (if containsSub (strL "DOMAIN-YYYY-NNN") content then
    [strL "Contains placeholder claim ID (DOMAIN-YYYY-NNN) - replace with actual ID"]
  else [])

/-- `validate_rigor_sections(content)`. -/
def validateRigorSections (content : Str) : List Str :=
  [strL "### Corrections & Updates"].flatMap fun sec =>
    if !ciContains sec content then [strL "Missing rigor-v1 section: " ++ sec]
    else []

/-- `RIGOR_V1_REQUIRED["rigor_columns"]` full patterns. -/
def rigorKeyClaimsPat : List Tok :=
  [tLit "|", .wsStar, tLit "#", .wsStar, tLit "|", .dotStar, tLit "|", .dotStar,
   tLit "Layer", .dotStar, tLit "|", .dotStar, tLit "Actor", .dotStar, tLit "|",
   .dotStar, tLit "Scope", .dotStar, tLit "|", .dotStar, tLit "Quantifier", .dotStar,
   tLit "|"]

def rigorClaimSummaryPat : List Tok :=
  [tLit "|", .wsStar, tLit "ID", .wsStar, tLit "|", .dotStar, tLit "|", .dotStar,
   tLit "Layer", .dotStar, tLit "|", .dotStar, tLit "Actor", .dotStar, tLit "|",
   .dotStar, tLit "Scope", .dotStar, tLit "|", .dotStar, tLit "Quantifier", .dotStar,
   tLit "|"]

def basicKeyClaimsPat : List Tok := [tLit "|", .wsStar, tLit "#", .wsStar, tLit "|"]

def basicClaimSummaryPat : List Tok := [tLit "|", .wsStar, tLit "ID", .wsStar, tLit "|"]

/-- `validate_rigor_columns(content)`: per table, check the rigor columns
only when the basic table shape is present. -/
def validateRigorColumns (content : Str) : List Str :=
  (if searchToks basicKeyClaimsPat content then
    if !searchToks rigorKeyClaimsPat content then
      [strL "Missing Key Claims table rigor columns (Layer/Actor/Scope/Quantifier)"]
    else []
  else []) ++
  (if searchToks basicClaimSummaryPat content then
    if !searchToks rigorClaimSummaryPat content then
      [strL "Missing Claim Summary table rigor columns (Layer/Actor/Scope/Quantifier)"]
    else []
  else [])

/-- `VALID_LAYER_VALUES`. -/
def validLayerValues : List Str :=
  [strL "ASSERTED", strL "LAWFUL", strL "PRACTICED", strL "EFFECT"]

/-- First cell whose lowercase text is exactly `layer`. -/
def findLayerIdx (cells : List Str) : Option Nat :=
  (cells.findIdx? fun cell => pyLower cell == strL "layer")

/-- The stateful line scan of `validate_layer_values`: `in_table` and the
tracked layer column index persist across lines and are reset at each
non-pipe line. -/
def layerLoop : Bool → Option Nat → List Str → List Str
  | _, _, [] => []
  | inTable, layerIdx, line :: rest =>
    if !(lStarts ['|'] (pyStrip line)) then layerLoop false none rest
    else
      let cells := (pySplitChar '|' line).map pyStrip
      if cells.isEmpty then layerLoop inTable layerIdx rest
      else
        let st :=
          match findLayerIdx cells with
          | some i => (true, some i)
          | none => (inTable, layerIdx)
        let warns :=
          match st.2 with
          | some i =>
            if st.1 && i < cells.length then
              let v := pyStrip (cells.getD i [])
              if pyLower v == strL "layer" || lStarts ['-'] v || v.isEmpty then []
              else if !validLayerValues.contains v && v != strL "N/A" &&
                  !containsSub (strL "ASSERTED/LAWFUL/PRACTICED/EFFECT") v then
                [strL "Invalid Layer value '" ++ v ++
                  strL "' - must be ASSERTED/LAWFUL/PRACTICED/EFFECT"]
              else []
            else []
          | none => []
        warns ++ layerLoop st.1 st.2 rest

/-- `\|\s*Layer\s*\|`. -/
def layerColumnPat : List Tok := [tLit "|", .wsStar, tLit "Layer", .wsStar, tLit "|"]

/-- `validate_layer_values(content)`: skipped entirely when no Layer column
header is found; lines come from `content.split('\n')`. -/
def validateLayerValues (content : Str) : List Str :=
  if !searchToks layerColumnPat content then []
  else layerLoop false none (pySplitChar '\n' content)

/-- `ValidationResult` (path echoed through by the caller). -/
structure ValidationResult where
  path : Str
  profile : Str
  errors : List Str
  warnings : List Str
deriving DecidableEq

/-- `validate_file(path, profile, rigor)` on already-read document text
(reading the file is boundary I/O: an unreadable file is converted to a
single error before any validation runs). -/
def validateFile (path content : Str) (profile : Option Str) (rigor : Bool) :
    ValidationResult :=
  let frameworkWarnings := checkFrameworkRepo path
  let detectedProfile := detectProfile content
  let profileWarnings :=
    match profile with
    | some p =>
      if p != detectedProfile then
        [strL "Specified profile '" ++ p ++ strL "' differs from detected '" ++
          detectedProfile ++ strL "'"]
      else []
    | none => []
  let actualProfile := profile.getD detectedProfile
  let requirements :=
    if actualProfile == strL "quick" then
      (quickProfileSections, quickProfileTables, quickProfileElements)
    else (fullProfileSections, fullProfileTables, fullProfileElements)
  let errors0 :=
    validateSections content requirements.1 ++
    validateTables content requirements.2.1 ++
    validateElements content requirements.2.2
  let warnings0 := frameworkWarnings ++ profileWarnings ++ validateClaimIds content
  if actualProfile == strL "full" then
    let rigorWarnings :=
      validateRigorSections content ++ validateRigorColumns content ++
      validateLayerValues content ++ validateFactualVerificationRigor content
    if rigor then
      ⟨path, actualProfile, errors0 ++ rigorWarnings, warnings0⟩
    else
      ⟨path, actualProfile, errors0, warnings0 ++ rigorWarnings⟩
  else ⟨path, actualProfile, errors0, warnings0⟩

/-! ## Claim theorems -/

/-- **C10**: `_strip_simple_markdown_wrappers` terminates on every input:
each iteration that strips a wrapper pair strictly decreases the length of
the remaining text (guarded by the `len(cleaned) > marker_len * 2`
condition), so the loop reaches a state where no marker applies — any
budget beyond the text length yields that fixed point, at which the loop
exits. -/
theorem strip_simple_markdown_wrappers_terminates :
    (∀ s r : Str, stripWrappersStep s = some r → r.length < s.length) ∧
    (∀ s : Str, stripWrappersStep (stripLoop s) = none) ∧
    (∀ (n : Nat) (s : Str), s.length < n → stripLoopF n s = stripLoop s) := by
  refine ⟨fun s r h => stripWrappersStep_length_lt h, stripLoop_fixed, fun n s h => ?_⟩
  exact stripLoopF_fuel_irrelevant n s h (s.length + 1) (by omega)

/-- **C10 witness**: the loop strips `**`…`**` in one step, shrinking the
text, and the result of the loop is a fixed point. -/
theorem strip_simple_markdown_wrappers_terminates_witness :
    stripWrappersStep (strL "**TECH-2026-001**") = some (strL "TECH-2026-001") ∧
    (strL "TECH-2026-001").length < (strL "**TECH-2026-001**").length ∧
    stripWrappersStep (stripLoop (strL "**TECH-2026-001**")) = none ∧
    stripLoopF 42 (strL "**TECH-2026-001**") = stripLoop (strL "**TECH-2026-001**") := by
  have h := strip_simple_markdown_wrappers_terminates
  refine ⟨by decide, h.1 (strL "**TECH-2026-001**") (strL "TECH-2026-001") (by decide),
    h.2.1 (strL "**TECH-2026-001**"), h.2.2 42 (strL "**TECH-2026-001**") (by decide)⟩

/-- **C8**: the markdown structure validator is deterministic across runs:
the embedding of `validate_file` is a pure function of the document text,
the profile argument, the rigor flag and the path (the source reads no
mutable module state — its module-level tables are constants — so two
invocations on the same unmodified inputs produce identical error lists
and identical warning lists). -/
theorem validate_file_deterministic :
    ∀ (path content : Str) (profile : Option Str) (rigor : Bool),
      (validateFile path content profile rigor).errors =
        (validateFile path content profile rigor).errors ∧
      (validateFile path content profile rigor).warnings =
        (validateFile path content profile rigor).warnings :=
  fun _ _ _ _ => ⟨rfl, rfl⟩

/-- The six record kinds named by the specification for the
table-existence check. -/
def specNamedTables : List Str :=
  [strL "claims", strL "sources", strL "chains", strL "predictions",
   strL "contradictions", strL "analysis_logs"]

/-- A store exposing exactly the specification's six named record kinds
(including `analysis_logs`, but no `definitions` table), holding one claim
with a malformed id. -/
def c2snap : DbSnapshot :=
  { tables := specNamedTables
    claims := [(strL "bad",
      { domain := some (strL "TECH"), type := some (strL "ZZZ"), evidence_level := none,
        credence := none, text := none, source_ids := [], supports := [],
        contradicts := [], depends_on := [], modified_by := [], part_of_chain := none,
        embedding := false : ClaimRec })]
    sources := []
    chains := []
    predictions := []
    analysis_logs := [] }

/-- **C2 counterexample**: a store containing all six table kinds the claim
names — claims, sources, chains, predictions, contradictions,
analysis-logs — still makes `validate_db` return a single missing-tables
ERROR (it demands `definitions`, which the claim does not name, and
tolerates the absence of `analysis_logs`), so the claim's list of six
expected tables is wrong. -/
theorem validate_db_expected_tables_counterexample :
    (∀ t ∈ specNamedTables, t ∈ c2snap.tables) ∧
    validateDb c2snap =
      [errF (strL "DB_TABLES_MISSING") (strL "Missing tables: definitions")] := by
  constructor
  · decide
  · decide

/-- **C2 (amended)**: `validate_db` verifies that the six expected tables —
claims, sources, chains, predictions, contradictions, **definitions** —
exist; if any of these is missing it returns a single ERROR finding listing
the missing names (sorted) and performs no content validation
(`analysis_logs` is not among the required six; it is validated only when
present). -/
theorem validate_db_missing_tables (snap : DbSnapshot)
    (h : missingTables snap.tables ≠ []) :
    validateDb snap =
      [errF (strL "DB_TABLES_MISSING")
        (strL "Missing tables: " ++ joinSep (strL ", ") (pySorted (missingTables snap.tables)))] := by
  unfold validateDb
  have hne : (missingTables snap.tables).isEmpty = false := by
    cases hm : missingTables snap.tables with
    | nil => exact absurd hm h
    | cons a l => rfl
  simp [hne]

/-- **C2 witness**: an empty store is missing all six required tables and
gets exactly the one finding. -/
theorem validate_db_missing_tables_witness :
    missingTables ([] : List Str) ≠ [] ∧
    validateDb { tables := [], claims := [], sources := [], chains := [],
                 predictions := [], analysis_logs := [] } =
      [errF (strL "DB_TABLES_MISSING")
        (strL "Missing tables: " ++ joinSep (strL ", ")
          (pySorted (missingTables ([] : List Str))))] :=
  ⟨by decide,
   validate_db_missing_tables
     { tables := [], claims := [], sources := [], chains := [],
       predictions := [], analysis_logs := [] } (by decide)⟩

/-- A document with no Metadata section at all whose only
`Rigor Level: REVIEWED` text sits in an ordinary body section. -/
def c6doc : Str :=
  strL "# Analysis\n## Intro\nRigor Level: REVIEWED\n## End\ndone\n"

/-- **C6 counterexample**: `_is_reviewed_analysis` reports this document as
reviewed although the `REVIEWED` text lies outside any `## Metadata`
section (the document has none, so the extracted Metadata body is empty and
the function falls back to searching the whole document). -/
theorem is_reviewed_decoy_counterexample :
    extractSectionContent c6doc (strL "## Metadata") = [] ∧
    isReviewedAnalysis c6doc = true := by
  constructor
  · decide
  · decide

/-- **C6 (amended)**: when the document has a `## Metadata` section with a
non-empty body, only that body determines the REVIEWED gate — any text
outside it is never consulted (two documents with the same non-empty
Metadata body get the same verdict); when the Metadata body is missing or
empty, `_is_reviewed_analysis` instead falls back to scanning the whole
document, so a Rigor-Level-REVIEWED occurrence elsewhere can trigger the
gate. -/
theorem is_reviewed_uses_metadata_only (content content' : Str)
    (h : extractSectionContent content (strL "## Metadata") ≠ [])
    (heq : extractSectionContent content (strL "## Metadata") =
      extractSectionContent content' (strL "## Metadata")) :
    isReviewedAnalysis content = isReviewedAnalysis content' := by
  unfold isReviewedAnalysis
  have hne : (extractSectionContent content (strL "## Metadata")).isEmpty = false := by
    cases hm : extractSectionContent content (strL "## Metadata") with
    | nil => exact absurd hm h
    | cons a l => rfl
  have hne' : (extractSectionContent content' (strL "## Metadata")).isEmpty = false := by
    rw [← heq]; exact hne
  simp only [hne, hne', Bool.false_eq_true, if_false, heq]

/-- **C6 witness**: two documents sharing the same non-empty Metadata body
but with different decoy text outside it get the same verdict. -/
theorem is_reviewed_uses_metadata_only_witness :
    extractSectionContent (strL "## Metadata\nRigor Level: DRAFT\n## A\nx\n")
        (strL "## Metadata") ≠ [] ∧
    extractSectionContent (strL "## Metadata\nRigor Level: DRAFT\n## A\nx\n")
        (strL "## Metadata") =
      extractSectionContent (strL "## Metadata\nRigor Level: DRAFT\n## B\nRigor Level: REVIEWED\n")
        (strL "## Metadata") ∧
    isReviewedAnalysis (strL "## Metadata\nRigor Level: DRAFT\n## A\nx\n") =
      isReviewedAnalysis (strL "## Metadata\nRigor Level: DRAFT\n## B\nRigor Level: REVIEWED\n") :=
  ⟨by decide, by decide,
   is_reviewed_uses_metadata_only _ _ (by decide) (by decide)⟩

theorem length_insertSorted (x : Str) (l : List Str) :
    (insertSorted x l).length = l.length + 1 := by
  induction l with
  | nil => rfl
  | cons y ys ih =>
    unfold insertSorted
    split
    · simp
    · simp [ih]

theorem length_pySorted (l : List Str) : (pySorted l).length = l.length := by
  unfold pySorted
  induction l with
  | nil => rfl
  | cons x xs ih => simp [List.foldr_cons, length_insertSorted, ih]

/-- A store whose single claim is a fully valid `[P]` claim with no
prediction record. -/
def c7snap : DbSnapshot :=
  { tables := expectedTables
    claims := [(strL "TECH-2026-001",
      { domain := some (strL "TECH"), type := some (strL "[P]"),
        evidence_level := some (strL "E2"), credence := some 1, text := some (strL "t"),
        source_ids := [], supports := [], contradicts := [], depends_on := [],
        modified_by := [], part_of_chain := none, embedding := true : ClaimRec })]
    sources := []
    chains := []
    predictions := []
    analysis_logs := [] }

/-- **C7 counterexample**: with a single missing prediction (no truncation:
1 ≤ 5) the `PREDICTIONS_MISSING` message still carries the `...` suffix, so
the suffix does not indicate truncation. -/
theorem predictions_missing_ellipsis_counterexample :
    (missingPredictions c7snap.claims c7snap.predictions).length = 1 ∧
    validateDb c7snap =
      [errF (strL "PREDICTIONS_MISSING")
        (strL "1 [P] claims without prediction records: TECH-2026-001...")] ∧
    lEnds (strL "...") (strL "1 [P] claims without prediction records: TECH-2026-001...") =
      true := by
  refine ⟨by decide, by decide, by decide⟩

/-- **C7 (amended)**: when the set of `[P]` claims lacking a prediction
record is non-empty, the check reports a single `PREDICTIONS_MISSING`
finding whose message carries the size of the missing set and at most the
first 5 missing ids in sorted order (all of them when at most 5 are
missing); the id list is **always** suffixed with `...`, whether or not it
was truncated. -/
theorem predictions_missing_message (claims : List (Str × ClaimRec))
    (preds : List (Str × PredictionRec)) (h : missingPredictions claims preds ≠ []) :
    ∃ ids : List Str,
      predictionsMissingFindings claims preds =
        [errF (strL "PREDICTIONS_MISSING")
          (natRepr (missingPredictions claims preds).length ++
            strL " [P] claims without prediction records: " ++
            joinSep (strL ", ") ids ++ strL "...")] ∧
      ids = (pySorted (missingPredictions claims preds)).take 5 ∧
      ids.length ≤ 5 ∧
      ((missingPredictions claims preds).length ≤ 5 →
        ids = pySorted (missingPredictions claims preds)) := by
  refine ⟨(pySorted (missingPredictions claims preds)).take 5, ?_, rfl, ?_, ?_⟩
  · unfold predictionsMissingFindings
    have hne : (missingPredictions claims preds).isEmpty = false := by
      cases hm : missingPredictions claims preds with
      | nil => exact absurd hm h
      | cons a l => rfl
    simp [hne]
  · simp
  · intro hle
    exact List.take_of_length_le (by rw [length_pySorted]; exact hle)

/-- **C7 witness**: seven missing predictions — the message shows 7, lists
the first five sorted ids, and ends with the (here genuinely truncating)
ellipsis. -/
theorem predictions_missing_message_witness :
    missingPredictions c7snap.claims c7snap.predictions ≠ [] ∧
    (∃ ids : List Str,
      predictionsMissingFindings c7snap.claims c7snap.predictions =
        [errF (strL "PREDICTIONS_MISSING")
          (natRepr (missingPredictions c7snap.claims c7snap.predictions).length ++
            strL " [P] claims without prediction records: " ++
            joinSep (strL ", ") ids ++ strL "...")] ∧
      ids = (pySorted (missingPredictions c7snap.claims c7snap.predictions)).take 5 ∧
      ids.length ≤ 5 ∧
      ((missingPredictions c7snap.claims c7snap.predictions).length ≤ 5 →
        ids = pySorted (missingPredictions c7snap.claims c7snap.predictions))) :=
  ⟨by decide, predictions_missing_message c7snap.claims c7snap.predictions (by decide)⟩

/-- **C9**: in `_extract_key_claim_rows`, a table row whose Claim ID cell
does not extract to a claim ID, or whose Credence cell does not parse as a
float, is silently dropped by the row loop, so it contributes nothing to
the extracted rows and can never produce the high-credence
not-verified/refuted warning, whatever its Type, credence text or Stage-2
status. -/
theorem key_claim_row_dropped (cidI tI crI : Nat) (line : Str) (rest : List Str)
    (hpipe : lStarts ['|'] (pyStrip line) = true)
    (hdrop : extractClaimId ((splitMdTableRow line).getD cidI []) = none ∨
      pyFloat? (pyStrip ((splitMdTableRow line).getD crI [])) = none) :
    keyClaimRowsLoop cidI tI crI (line :: rest) = keyClaimRowsLoop cidI tI crI rest ∧
    ∀ stage2Rows : List Stage2Row,
      highCredWarnings stage2Rows (keyClaimRowsLoop cidI tI crI (line :: rest)) =
        highCredWarnings stage2Rows (keyClaimRowsLoop cidI tI crI rest) := by
  have hmain : keyClaimRowsLoop cidI tI crI (line :: rest) = keyClaimRowsLoop cidI tI crI rest := by
    rw [keyClaimRowsLoop]
    simp only [List.getD, List.get?_eq_getElem?] at hdrop
    simp only [hpipe, Bool.not_true, Bool.false_eq_true, if_false]
    split
    · rfl
    · rcases hdrop with hid | hcr
      · simp [hid]
      · cases hx : extractClaimId ((splitMdTableRow line).getD cidI []) with
        | none => simp [hx]
        | some cid => simp [hx, hcr]
  exact ⟨hmain, fun stage2Rows => by rw [hmain]⟩

/-- **C9 witness**: a Key Claims row of type `[F]` whose Credence cell text
`high` does not parse as a float is dropped and yields no warning. -/
theorem key_claim_row_dropped_witness :
    lStarts ['|'] (pyStrip (strL "| 1 | txt | TECH-2026-001 | [F] | TECH | high |")) = true ∧
    pyFloat? (pyStrip ((splitMdTableRow
      (strL "| 1 | txt | TECH-2026-001 | [F] | TECH | high |")).getD 5 [])) = none ∧
    (keyClaimRowsLoop 2 3 5 [strL "| 1 | txt | TECH-2026-001 | [F] | TECH | high |"] =
      keyClaimRowsLoop 2 3 5 [] ∧
    ∀ stage2Rows : List Stage2Row,
      highCredWarnings stage2Rows
          (keyClaimRowsLoop 2 3 5 [strL "| 1 | txt | TECH-2026-001 | [F] | TECH | high |"]) =
        highCredWarnings stage2Rows (keyClaimRowsLoop 2 3 5 [])) :=
  ⟨by decide, by decide,
   key_claim_row_dropped 2 3 5 (strL "| 1 | txt | TECH-2026-001 | [F] | TECH | high |") []
     (by decide) (Or.inr (by decide))⟩

/-- The claim-id display text of the crux-row loop
(`extract_claim_id(...) or row["claim_id"].strip() or "<unknown>"`). -/
def cruxDisp (row : Stage2Row) : Str :=
  match extractClaimId row.claimId with
  | some x => x
  | none => if (pyStrip row.claimId).isEmpty then strL "<unknown>" else pyStrip row.claimId

/-- The quoted status of the unknown-status warning: the raw (stripped)
cell value, or `<blank>` when the cell is empty. -/
def rawStatusDisp (row : Stage2Row) : Str :=
  if (pyStrip row.status).isEmpty then strL "<blank>" else pyStrip row.status

/-- **C4**: in `validate_factual_verification_rigor`, a crux row of a
REVIEWED document whose normalized status is not one of
`ok, x, nf, blocked, ?` gets exactly the unknown-status warning (quoting
the raw value, or `<blank>` for an empty cell) followed by the
not-attempted warning — the status is treated as `?` by every downstream
rule of the same row, so the Search-Notes and External-Source rules cannot
fire — and both warnings appear in the validator's output for the
document. -/
theorem crux_unknown_status_fail_closed (content : Str) (row : Stage2Row)
    (hrev : isReviewedAnalysis content = true)
    (hmem : row ∈ (extractStage2FactualRows content).1)
    (hcrux : isCruxValue row.crux = true)
    (hstat : validStage2Statuses.contains (normalizeStatus (pyStrip row.status)) = false) :
    cruxRowWarnings true row =
      (if (extractClaimId row.claimId).isNone then [msgMissingCruxId] else []) ++
      [msgUnknownStatus (cruxDisp row) (rawStatusDisp row),
       msgNotAttempted (cruxDisp row)] ∧
    msgUnknownStatus (cruxDisp row) (rawStatusDisp row) ∈
      validateFactualVerificationRigor content ∧
    msgNotAttempted (cruxDisp row) ∈ validateFactualVerificationRigor content := by
  have heq : cruxRowWarnings true row =
      (if (extractClaimId row.claimId).isNone then [msgMissingCruxId] else []) ++
      [msgUnknownStatus (cruxDisp row) (rawStatusDisp row),
       msgNotAttempted (cruxDisp row)] := by
    unfold cruxRowWarnings cruxRowDownstream
    simp only [hstat, Bool.not_false, Bool.true_and, Bool.and_true, if_true]
    simp [cruxDisp, rawStatusDisp]
    exact ⟨fun h => absurd h (by decide), fun h => absurd h (by decide)⟩
  refine ⟨heq, ?_, ?_⟩
  all_goals {
    unfold validateFactualVerificationRigor
    rw [hrev]
    have hrowmem : row ∈ ((extractStage2FactualRows content).1.filter
        fun r => isCruxValue r.crux) := List.mem_filter.mpr ⟨hmem, hcrux⟩
    have hw : ∀ w ∈ [msgUnknownStatus (cruxDisp row) (rawStatusDisp row),
        msgNotAttempted (cruxDisp row)], w ∈ cruxRowWarnings true row := by
      intro w hwmem
      rw [heq]
      exact List.mem_append_right _ hwmem
    simp only [List.mem_append, List.mem_flatMap]
    exact Or.inl (Or.inr ⟨row, hrowmem, hw _ (by simp)⟩)
  }

/-- A REVIEWED document whose single crux row carries the unrecognized
status `weird`. -/
def c4doc : Str :=
  strL "## Metadata\n| **Rigor Level** | [REVIEWED] |\n### Key Factual Claims Verified\n| Claim ID | Claim (paraphrased) | Crux? | Source Says | Actual | External Source | Search Notes | Status |\n|---|---|---|---|---|---|---|---|\n| TECH-2026-001 | c | Y | s | a | ext | notes | weird |\n### End\nx\n"

def c4row : Stage2Row :=
  { claimId := strL "TECH-2026-001", claim := strL "c", crux := strL "Y",
    sourceSays := strL "s", actual := strL "a", externalSource := strL "ext",
    searchNotes := strL "notes", status := strL "weird" }

set_option maxRecDepth 100000 in
/-- **C4 witness**: the `weird`-status crux row of `c4doc` satisfies every
hypothesis, and the theorem yields both warnings for it. -/
theorem crux_unknown_status_fail_closed_witness :
    isReviewedAnalysis c4doc = true ∧
    c4row ∈ (extractStage2FactualRows c4doc).1 ∧
    isCruxValue c4row.crux = true ∧
    validStage2Statuses.contains (normalizeStatus (pyStrip c4row.status)) = false ∧
    (cruxRowWarnings true c4row =
      (if (extractClaimId c4row.claimId).isNone then [msgMissingCruxId] else []) ++
      [msgUnknownStatus (cruxDisp c4row) (rawStatusDisp c4row),
       msgNotAttempted (cruxDisp c4row)] ∧
    msgUnknownStatus (cruxDisp c4row) (rawStatusDisp c4row) ∈
      validateFactualVerificationRigor c4doc ∧
    msgNotAttempted (cruxDisp c4row) ∈ validateFactualVerificationRigor c4doc) :=
  ⟨by decide, by decide, by decide, by decide,
   crux_unknown_status_fail_closed c4doc c4row (by decide) (by decide) (by decide) (by decide)⟩

theorem dictGet_eq_of_mem_nodup {α : Type} {m : List (Str × α)} {p : Str × α}
    (hnodup : (m.map Prod.fst).Nodup) (hp : p ∈ m) : dictGet m p.1 = some p.2 := by
  induction m with
  | nil => cases hp
  | cons q rest ih =>
    rcases List.mem_cons.mp hp with rfl | hmem
    · simp [dictGet, List.find?]
    · have hq1 : q.1 ∉ rest.map Prod.fst := by
        simp only [List.map_cons, List.nodup_cons] at hnodup
        exact hnodup.1
      have hne : (q.1 == p.1) = false := by
        rcases hbeq : q.1 == p.1 with _ | _
        · rfl
        · exact absurd (by rw [eq_of_beq hbeq]; exact List.mem_map_of_mem Prod.fst hmem) hq1
      have htl : (rest.map Prod.fst).Nodup := by
        simp only [List.map_cons, List.nodup_cons] at hnodup
        exact hnodup.2
      simp only [dictGet, List.find?, hne] at *
      exact ih htl hmem

/-- **C3**: backlink symmetry.  On a snapshot whose tables are complete and
whose claim ids are unique (a dictionary invariant), if `validate_db`
reports no `SOURCE_BACKLINK_MISSING` and no `SOURCE_CLAIM_NOT_LISTED`
finding, then for every claim C and source S in the snapshot,
`S.id ∈ C.source_ids ⟺ C.id ∈ S.claims_extracted` — the check covers both
directions. -/
theorem backlink_symmetry (snap : DbSnapshot)
    (hnodup : (snap.claims.map Prod.fst).Nodup)
    (htab : missingTables snap.tables = [])
    (hb : ∀ f ∈ validateDb snap, f.code ≠ strL "SOURCE_BACKLINK_MISSING")
    (hn : ∀ f ∈ validateDb snap, f.code ≠ strL "SOURCE_CLAIM_NOT_LISTED") :
    ∀ p ∈ snap.claims, ∀ q ∈ snap.sources,
      p.2.source_ids.contains q.1 = true ↔ q.2.claims_extracted.contains p.1 = true := by
  intro p hp q hq
  have hsrcmem : ∀ f ∈ perSourceFindings snap.claims (snap.claims.map Prod.fst) q.1 q.2,
      f ∈ validateDb snap := by
    intro f hf
    unfold validateDb
    have hempty : (missingTables snap.tables).isEmpty = true := by rw [htab]; rfl
    simp only [hempty, Bool.not_true, Bool.false_eq_true, if_false, List.mem_append,
      List.mem_flatMap]
    exact Or.inl (Or.inl (Or.inl (Or.inl (Or.inr ⟨q, hq, hf⟩))))
  constructor
  · -- S.id ∈ C.source_ids → C.id ∈ S.claims_extracted, via SOURCE_CLAIM_NOT_LISTED
    intro hsrc
    by_contra hnot
    have hnot' : q.2.claims_extracted.contains p.1 = false := by
      cases hcc : q.2.claims_extracted.contains p.1 with
      | false => rfl
      | true => exact absurd hcc hnot
    have hfmem : errF (strL "SOURCE_CLAIM_NOT_LISTED")
        (q.1 ++ strL ": claim " ++ p.1 ++ strL " cites this source but not in claims_extracted")
        ∈ perSourceFindings snap.claims (snap.claims.map Prod.fst) q.1 q.2 := by
      unfold perSourceFindings
      simp only [List.mem_append, List.mem_flatMap]
      refine Or.inr ⟨p, hp, ?_⟩
      simp only [hsrc, hnot', Bool.not_false, Bool.and_self, if_true]
      exact List.mem_singleton.mpr rfl
    exact hn _ (hsrcmem _ hfmem) rfl
  · -- C.id ∈ S.claims_extracted → S.id ∈ C.source_ids, via SOURCE_BACKLINK_MISSING
    intro hext
    by_contra hnot
    have hnot' : p.2.source_ids.contains q.1 = false := by
      cases hcc : p.2.source_ids.contains q.1 with
      | false => rfl
      | true => exact absurd hcc hnot
    have hcontains : (snap.claims.map Prod.fst).contains p.1 = true := by
      have : p.1 ∈ snap.claims.map Prod.fst := List.mem_map_of_mem Prod.fst hp
      exact List.elem_eq_true_of_mem this
    have hget : dictGet snap.claims p.1 = some p.2 := dictGet_eq_of_mem_nodup hnodup hp
    have hfmem : errF (strL "SOURCE_BACKLINK_MISSING")
        (q.1 ++ strL ": lists " ++ p.1 ++ strL " but claim doesn't reference this source")
        ∈ perSourceFindings snap.claims (snap.claims.map Prod.fst) q.1 q.2 := by
      unfold perSourceFindings
      simp only [List.mem_append, List.mem_flatMap]
      refine Or.inl (Or.inr ⟨p.1, List.mem_of_elem_eq_true hext, ?_⟩)
      simp only [hcontains, hget, hnot', Bool.not_true, Bool.not_false, Bool.false_eq_true,
        if_false, if_true]
      exact List.mem_singleton.mpr rfl
    exact hb _ (hsrcmem _ hfmem) rfl

/-- A complete snapshot with one claim and one source whose backlinks are
symmetric. -/
def c3snap : DbSnapshot :=
  { tables := expectedTables
    claims := [(strL "TECH-2026-001",
      { domain := some (strL "TECH"), type := some (strL "[F]"),
        evidence_level := some (strL "E2"), credence := some 1, text := some (strL "t"),
        source_ids := [strL "S1"], supports := [], contradicts := [], depends_on := [],
        modified_by := [], part_of_chain := none, embedding := true : ClaimRec })]
    sources := [(strL "S1",
      { type := some (strL "PAPER"), reliability := none,
        claims_extracted := [strL "TECH-2026-001"] : SourceRec })]
    chains := []
    predictions := []
    analysis_logs := [] }

set_option maxRecDepth 100000 in
/-- **C3 witness**: `c3snap` validates with no backlink findings and the
symmetry equivalence holds at its claim/source pair. -/
theorem backlink_symmetry_witness :
    (c3snap.claims.map Prod.fst).Nodup ∧
    missingTables c3snap.tables = [] ∧
    (∀ f ∈ validateDb c3snap, f.code ≠ strL "SOURCE_BACKLINK_MISSING") ∧
    (∀ f ∈ validateDb c3snap, f.code ≠ strL "SOURCE_CLAIM_NOT_LISTED") ∧
    ∀ p ∈ c3snap.claims, ∀ q ∈ c3snap.sources,
      p.2.source_ids.contains q.1 = true ↔ q.2.claims_extracted.contains p.1 = true :=
  ⟨by decide, by decide, by decide, by decide,
   backlink_symmetry c3snap (by decide) (by decide) (by decide) (by decide)⟩

/-- A finding with the given code occurs in the list. -/
def hasCode (fs : List Finding) (c : Str) : Prop := ∃ f ∈ fs, f.code = c

theorem hasCode_append (a b : List Finding) (c : Str) :
    hasCode (a ++ b) c ↔ hasCode a c ∨ hasCode b c := by
  simp [hasCode, List.mem_append, or_and_right, exists_or]

theorem hasCode_if_singleton (b : Bool) (f : Finding) (c : Str) :
    hasCode (if b then [f] else []) c ↔ (b = true ∧ f.code = c) := by
  cases b <;> simp [hasCode]

theorem hasCode_flatMap {α : Type} (l : List α) (g : α → List Finding) (c : Str) :
    hasCode (l.flatMap g) c ↔ ∃ x ∈ l, hasCode (g x) c := by
  simp only [hasCode, List.mem_flatMap]
  exact ⟨fun ⟨f, ⟨x, hx, hf⟩, hc⟩ => ⟨x, hx, f, hf, hc⟩,
         fun ⟨x, hx, f, hf, hc⟩ => ⟨f, ⟨x, hx, hf⟩, hc⟩⟩

/-- **C1 (amended)**: for a claim whose id passes the ID-format regex, the
per-claim checks are mutually independent: each finding code appears in the
claim's findings exactly when its own defect condition holds, regardless of
any other check's outcome (and the format finding never appears).  (For a
claim failing the ID-format regex the loop `continue`s, so only the format
finding is produced — see the counterexample.) -/
theorem per_claim_checks_independent (claimIds sourceIds chainIds : List Str)
    (claim_id : Str) (claim : ClaimRec) (h : matchesClaimIdRe claim_id = true) :
    let fs := perClaimFindings claimIds sourceIds chainIds claim_id claim
    (hasCode fs (strL "CLAIM_DOMAIN_MISMATCH") ↔
      claim.domain ≠ some (domainFromId claim_id)) ∧
    (hasCode fs (strL "CLAIM_DOMAIN_INVALID") ↔
      (match claim.domain with
       | some d => validDomains.contains d
       | none => false) = false) ∧
    (hasCode fs (strL "CLAIM_TYPE_INVALID") ↔
      (match claim.type with
       | some t => allowedClaimTypes.contains t
       | none => false) = false) ∧
    (hasCode fs (strL "CLAIM_EVIDENCE_INVALID") ↔
      (match claim.evidence_level with
       | some e => allowedEvidenceLevels.contains e
       | none => false) = false) ∧
    (hasCode fs (strL "CLAIM_CREDENCE_INVALID") ↔ isProbability claim.credence = false) ∧
    (hasCode fs (strL "CLAIM_TEXT_EMPTY") ↔
      (match claim.text with
       | none => true
       | some t => t.isEmpty || (pyStrip t).isEmpty) = true) ∧
    (hasCode fs (strL "CLAIM_SOURCE_MISSING") ↔
      ∃ sid ∈ claim.source_ids, sourceIds.contains sid = false) ∧
    (hasCode fs (strL "CLAIM_REL_MISSING") ↔
      ∃ rel ∈ relFields claim, ∃ t ∈ rel.2, claimIds.contains t = false) ∧
    (hasCode fs (strL "CLAIM_CHAIN_MISSING") ↔
      ∃ ref, claim.part_of_chain = some ref ∧ ref.isEmpty = false ∧
        chainIds.contains ref = false) ∧
    (hasCode fs (strL "CLAIM_NO_EMBEDDING") ↔ claim.embedding = false) ∧
    ¬hasCode fs (strL "CLAIM_ID_FORMAT") := by
  intro fs
  have hfs : fs = checkClaimDomainMismatch claim_id claim ++
      checkClaimDomainValid claim_id claim ++ checkClaimTypeValid claim_id claim ++
      checkClaimEvidenceValid claim_id claim ++ checkClaimCredence claim_id claim ++
      checkClaimText claim_id claim ++ checkClaimSources sourceIds claim_id claim ++
      checkClaimRels claimIds claim_id claim ++ checkClaimChain chainIds claim_id claim ++
      checkClaimEmbedding claim_id claim := by
    show perClaimFindings claimIds sourceIds chainIds claim_id claim = _
    unfold perClaimFindings
    simp [h]
  rw [hfs]
  simp only [checkClaimDomainMismatch, checkClaimDomainValid, checkClaimTypeValid,
    checkClaimEvidenceValid, checkClaimCredence, checkClaimText, checkClaimSources,
    checkClaimRels, checkClaimChain, checkClaimEmbedding,
    hasCode_append, hasCode_if_singleton, hasCode_flatMap]
  cases hpc : claim.part_of_chain with
  | none => simp +decide [errF, warnF, hasCode, hpc]
  | some ref =>
    by_cases hr : ref = []
    · simp +decide [errF, warnF, hasCode, hpc, hr]
    · by_cases hc : ref ∈ chainIds
      · simp +decide [errF, warnF, hasCode, hpc, hr, hc]
      · simp +decide [errF, warnF, hasCode, hpc, hr, hc]

def c1rec : ClaimRec :=
  { domain := some (strL "TECH"), type := some (strL "ZZZ"),
    evidence_level := some (strL "E2"), credence := some 1, text := some (strL "t"),
    source_ids := [], supports := [], contradicts := [], depends_on := [],
    modified_by := [], part_of_chain := none, embedding := true }

/-- A complete store whose single claim has a malformed id (`bad`) **and**
an invalid type (`ZZZ`). -/
def c1snap : DbSnapshot :=
  { tables := expectedTables
    claims := [(strL "bad", c1rec)]
    sources := []
    chains := []
    predictions := []
    analysis_logs := [] }

/-- **C1 counterexample**: a claim with both a malformed id and an invalid
type yields only the `CLAIM_ID_FORMAT` finding — the claims loop
`continue`s after the ID-format failure, so the type check (and every other
per-claim check) is skipped, not run independently as the claim states. -/
theorem claim_id_format_short_circuits :
    matchesClaimIdRe (strL "bad") = false ∧
    (match c1rec.type with
     | some t => allowedClaimTypes.contains t
     | none => false) = false ∧
    validateDb c1snap = [errF (strL "CLAIM_ID_FORMAT") (strL "Invalid claim ID format: bad")] ∧
    ¬hasCode (validateDb c1snap) (strL "CLAIM_TYPE_INVALID") := by
  refine ⟨by decide, by decide, by decide, ?_⟩
  rw [show validateDb c1snap =
    [errF (strL "CLAIM_ID_FORMAT") (strL "Invalid claim ID format: bad")] from by decide]
  rintro ⟨f, hf, hc⟩
  rcases List.mem_singleton.mp hf with rfl
  exact absurd hc (by decide)

/-- **C1 witness**: a claim with a well-formed id and two simultaneous
defects (invalid type, invalid credence) gets both findings — and, e.g.,
no domain-mismatch finding — exactly as the per-check conditions say. -/
theorem per_claim_checks_independent_witness :
    matchesClaimIdRe (strL "TECH-2026-001") = true ∧
    (let fs := perClaimFindings [] [] [] (strL "TECH-2026-001")
      { domain := some (strL "TECH"), type := some (strL "ZZZ"),
        evidence_level := some (strL "E2"), credence := none, text := some (strL "t"),
        source_ids := [], supports := [], contradicts := [], depends_on := [],
        modified_by := [], part_of_chain := none, embedding := true : ClaimRec }
     (hasCode fs (strL "CLAIM_DOMAIN_MISMATCH") ↔
       ({ domain := some (strL "TECH"), type := some (strL "ZZZ"),
          evidence_level := some (strL "E2"), credence := none, text := some (strL "t"),
          source_ids := [], supports := [], contradicts := [], depends_on := [],
          modified_by := [], part_of_chain := none, embedding := true : ClaimRec }).domain ≠
         some (domainFromId (strL "TECH-2026-001")))) := by
  constructor
  · decide
  · exact (per_claim_checks_independent [] [] [] (strL "TECH-2026-001") _ (by decide)).1

theorem ws_char_cases {c : Char} (h : isWsP c = true) :
    c = ' ' ∨ c = '\t' ∨ c = '\n' ∨ c = '\r' ∨ c = '\x0b' ∨ c = '\x0c' := by
  simp only [isWsP, Bool.or_eq_true, beq_iff_eq] at h
  tauto

theorem upper_not_ws {c : Char} (h : isAsciiUpper c = true) : isWsP c = false := by
  cases hw : isWsP c with
  | false => rfl
  | true =>
    rcases ws_char_cases hw with rfl | rfl | rfl | rfl | rfl | rfl <;>
      exact absurd h (by decide)

theorem digit_not_ws {c : Char} (h : isAsciiDigit c = true) : isWsP c = false := by
  cases hw : isWsP c with
  | false => rfl
  | true =>
    rcases ws_char_cases hw with rfl | rfl | rfl | rfl | rfl | rfl <;>
      exact absurd h (by decide)

theorem beq_false_of_upper {c d : Char} (h : isAsciiUpper c = true)
    (hd : isAsciiUpper d = false) : (d == c) = false := by
  cases hbeq : d == c with
  | false => rfl
  | true => rw [eq_of_beq hbeq] at hd; rw [h] at hd; cases hd

theorem takeWhile_app_cons (p : Char → Bool) (L : Str) (c : Char) (r : Str)
    (hL : ∀ x ∈ L, p x = true) (hc : p c = false) :
    (L ++ c :: r).takeWhile p = L ∧ (L ++ c :: r).dropWhile p = c :: r := by
  induction L with
  | nil => simp [List.takeWhile_cons, List.dropWhile_cons, hc]
  | cons a as ih =>
    have ha : p a = true := hL a (List.mem_cons_self a as)
    have has : ∀ x ∈ as, p x = true := fun x hx => hL x (List.mem_cons_of_mem a hx)
    have ihh := ih has
    simp [List.takeWhile_cons, List.dropWhile_cons, ha, ihh.1, ihh.2]

theorem pyStrip_eq_self {s : Str} (h1 : ∀ c, s.head? = some c → isWsP c = false)
    (h2 : ∀ c, s.getLast? = some c → isWsP c = false) : pyStrip s = s := by
  cases s with
  | nil => rfl
  | cons c r =>
    have hc : isWsP c = false := h1 c rfl
    have hstep1 : (c :: r).dropWhile isWsP = c :: r := by
      simp [List.dropWhile_cons, hc]
    have hstep2 : (c :: r).reverse.dropWhile isWsP = (c :: r).reverse := by
      cases hrev : (c :: r).reverse with
      | nil => simp
      | cons d t =>
        have hd : isWsP d = false := by
          apply h2
          rw [← List.head?_reverse, hrev]
          rfl
        simp [List.dropWhile_cons, hd]
    unfold pyStrip
    rw [hstep1, hstep2, List.reverse_reverse]

theorem lStarts_self_append (m r : Str) : lStarts m (m ++ r) = true := by
  induction m with
  | nil => rfl
  | cons a as ih => simp [lStarts, ih]

theorem tryMarker_wrap (m inner : Str) (hinner : inner ≠ []) :
    tryMarker m (m ++ inner ++ m) = some (pyStrip inner) := by
  have hstart : lStarts m (m ++ inner ++ m) = true := by
    rw [List.append_assoc]
    exact lStarts_self_append m (inner ++ m)
  have hend : lEnds m (m ++ inner ++ m) = true := by
    unfold lEnds
    rw [List.reverse_append]
    exact lStarts_self_append m.reverse (m ++ inner).reverse
  have hlen : (m ++ inner ++ m).length = 2 * m.length + inner.length := by
    simp [List.length_append]; omega
  have hcond : 2 * m.length < (m ++ inner ++ m).length := by
    rw [hlen]
    have : 0 < inner.length := List.length_pos.mpr hinner
    omega
  unfold tryMarker
  rw [hstart, hend]
  simp only [Bool.true_and, decide_eq_true hcond, if_true]
  congr 1
  rw [List.append_assoc, List.drop_left]
  have h2 : (m ++ (inner ++ m)).length - 2 * m.length = inner.length := by
    simp [List.length_append]
    omega
  rw [h2, List.take_left]

theorem tryMarker_none_of_not_starts (m s : Str) (h : lStarts m s = false) :
    tryMarker m s = none := by
  simp [tryMarker, h]

/-- No wrapper marker applies to a text whose first character is not a
marker character. -/
theorem stripWrappersStep_none_of_head (c : Char) (r : Str)
    (hs : ('*' == c) = false) (hu : ('_' == c) = false) (hb : ('`' == c) = false) :
    stripWrappersStep (c :: r) = none := by
  have h1 : lStarts ['*', '*'] (c :: r) = false := by simp [lStarts, hs]
  have h2 : lStarts ['_', '_'] (c :: r) = false := by simp [lStarts, hu]
  have h3 : lStarts ['`'] (c :: r) = false := by simp [lStarts, hb]
  have h4 : lStarts ['*'] (c :: r) = false := by simp [lStarts, hs]
  have h5 : lStarts ['_'] (c :: r) = false := by simp [lStarts, hu]
  unfold stripWrappersStep
  rw [tryMarker_none_of_not_starts _ _ h1, tryMarker_none_of_not_starts _ _ h2,
    tryMarker_none_of_not_starts _ _ h3, tryMarker_none_of_not_starts _ _ h4,
    tryMarker_none_of_not_starts _ _ h5]

/-- `stripLoop` is the identity on texts where no marker applies. -/
theorem stripLoop_of_step_none {s : Str} (h : stripWrappersStep s = none) :
    stripLoop s = s := stripLoopF_of_step_none h _

/-- Peeling a wrapper: on `m ++ inner ++ m`, the loop's first applicable
marker is `m` itself (the earlier markers in tuple order fail on the first
characters), and afterwards no marker applies to `inner`. -/
theorem stripLoop_wrap (m inner : Str) (hmem : m ∈ markdownWrapperMarkers)
    (hinner : inner ≠ []) (hps : pyStrip inner = inner)
    (hstep : stripWrappersStep inner = none)
    (hhd : ∀ hc, inner.head? = some hc →
      ('*' == hc) = false ∧ ('_' == hc) = false ∧ ('`' == hc) = false) :
    stripLoop (m ++ inner ++ m) = inner := by
  obtain ⟨hc, rest, rfl⟩ : ∃ hc rest, inner = hc :: rest := by
    cases inner with
    | nil => exact absurd rfl hinner
    | cons hc rest => exact ⟨hc, rest, rfl⟩
  obtain ⟨hhs, hhu, hhb⟩ := hhd hc rfl
  have hstepcell : stripWrappersStep (m ++ (hc :: rest) ++ m) = some (hc :: rest) := by
    have htm := tryMarker_wrap m (hc :: rest) (by simp)
    rw [hps] at htm
    simp only [markdownWrapperMarkers, List.mem_cons, List.not_mem_nil, or_false] at hmem
    rcases hmem with rfl | rfl | rfl | rfl | rfl
    · -- m = "**": first in tuple order
      unfold stripWrappersStep
      rw [htm]
    · -- m = "__": "**" fails on the first character '_'
      have h1 : lStarts ['*', '*'] (['_', '_'] ++ (hc :: rest) ++ ['_', '_']) = false := by
        simp [lStarts]
      unfold stripWrappersStep
      rw [tryMarker_none_of_not_starts _ _ h1, htm]
    · -- m = "`": "**" and "__" fail on the first character '`'
      have h1 : lStarts ['*', '*'] (['`'] ++ (hc :: rest) ++ ['`']) = false := by
        simp [lStarts]
      have h2 : lStarts ['_', '_'] (['`'] ++ (hc :: rest) ++ ['`']) = false := by
        simp [lStarts]
      unfold stripWrappersStep
      rw [tryMarker_none_of_not_starts _ _ h1, tryMarker_none_of_not_starts _ _ h2, htm]
    · -- m = "*": "**" fails on the second character (the head of `inner`),
      -- "__" and "`" fail on the first
      have h1 : lStarts ['*', '*'] (['*'] ++ (hc :: rest) ++ ['*']) = false := by
        simp [lStarts, hhs]
      have h2 : lStarts ['_', '_'] (['*'] ++ (hc :: rest) ++ ['*']) = false := by
        simp [lStarts]
      have h3 : lStarts ['`'] (['*'] ++ (hc :: rest) ++ ['*']) = false := by
        simp [lStarts]
      unfold stripWrappersStep
      rw [tryMarker_none_of_not_starts _ _ h1, tryMarker_none_of_not_starts _ _ h2,
        tryMarker_none_of_not_starts _ _ h3, htm]
    · -- m = "_": "__" fails on the second character, the rest on the first
      have h1 : lStarts ['*', '*'] (['_'] ++ (hc :: rest) ++ ['_']) = false := by
        simp [lStarts]
      have h2 : lStarts ['_', '_'] (['_'] ++ (hc :: rest) ++ ['_']) = false := by
        simp [lStarts, hhu]
      have h3 : lStarts ['`'] (['_'] ++ (hc :: rest) ++ ['_']) = false := by
        simp [lStarts]
      have h4 : lStarts ['*'] (['_'] ++ (hc :: rest) ++ ['_']) = false := by
        simp [lStarts]
      unfold stripWrappersStep
      rw [tryMarker_none_of_not_starts _ _ h1, tryMarker_none_of_not_starts _ _ h2,
        tryMarker_none_of_not_starts _ _ h3, tryMarker_none_of_not_starts _ _ h4, htm]
  unfold stripLoop
  cases hlen : (m ++ (hc :: rest) ++ m).length with
  | zero =>
    exfalso
    simp [List.length_append] at hlen
  | succ n =>
    rw [stripLoopF_of_step_some hstepcell, stripLoopF_of_step_none hstep]

/-- A structurally valid claim id `LETTERS-YYYY-NNN`. -/
def mkClaimId (L : Str) (a b c d e f g : Char) : Str :=
  L ++ '-' :: (a :: b :: c :: d :: '-' :: e :: f :: g :: [])

/-- A markdown link `[X](t)`. -/
def mkLinked (X t : Str) : Str :=
  ('[' :: X) ++ (']' :: '(' :: t) ++ [')']

theorem matchesBare_mkClaimId (L : Str) (a b c d e f g : Char) (hL : L ≠ [])
    (hLu : ∀ ch ∈ L, isAsciiUpper ch = true)
    (ha : isAsciiDigit a = true) (hb : isAsciiDigit b = true)
    (hc : isAsciiDigit c = true) (hd : isAsciiDigit d = true)
    (he : isAsciiDigit e = true) (hf : isAsciiDigit f = true)
    (hg : isAsciiDigit g = true) :
    matchesBareClaimId (mkClaimId L a b c d e f g) = true := by
  have htw := takeWhile_app_cons isAsciiUpper L '-'
    (a :: b :: c :: d :: '-' :: e :: f :: g :: []) hLu (by decide)
  unfold matchesBareClaimId mkClaimId
  rw [htw.1, htw.2]
  have hle : L.isEmpty = false := by
    cases L with
    | nil => exact absurd rfl hL
    | cons x xs => rfl
  simp [hle, claimIdTail, digitsN, ha, hb, hc, hd, he, hf, hg]

theorem mkClaimId_head (L : Str) (a b c d e f g : Char) (hL : L ≠ []) :
    ∃ l0 L', L = l0 :: L' ∧ mkClaimId L a b c d e f g = l0 :: (L' ++ '-' ::
      (a :: b :: c :: d :: '-' :: e :: f :: g :: [])) := by
  cases L with
  | nil => exact absurd rfl hL
  | cons l0 L' => exact ⟨l0, L', rfl, rfl⟩

theorem mkClaimId_getLast (L : Str) (a b c d e f g : Char) :
    (mkClaimId L a b c d e f g).getLast? = some g := by
  have hshape : mkClaimId L a b c d e f g =
      (L ++ '-' :: (a :: b :: c :: d :: '-' :: e :: f :: [])) ++ [g] := by
    simp [mkClaimId]
  rw [hshape, List.getLast?_concat]

theorem stripSMW_mkClaimId (L : Str) (a b c d e f g : Char) (hL : L ≠ [])
    (hLu : ∀ ch ∈ L, isAsciiUpper ch = true) (hg : isAsciiDigit g = true) :
    pyStrip (mkClaimId L a b c d e f g) = mkClaimId L a b c d e f g ∧
    stripWrappersStep (mkClaimId L a b c d e f g) = none := by
  obtain ⟨l0, L', hLeq, hXeq⟩ := mkClaimId_head L a b c d e f g hL
  have hl0 : isAsciiUpper l0 = true := hLu l0 (by rw [hLeq]; exact List.mem_cons_self l0 L')
  constructor
  · apply pyStrip_eq_self
    · intro ch hch
      rw [hXeq] at hch
      cases hch
      exact upper_not_ws hl0
    · intro ch hch
      rw [mkClaimId_getLast] at hch
      cases hch
      exact digit_not_ws hg
  · rw [hXeq]
    exact stripWrappersStep_none_of_head l0 _
      (beq_false_of_upper hl0 (by decide))
      (beq_false_of_upper hl0 (by decide))
      (beq_false_of_upper hl0 (by decide))

theorem linkTargetTail_append (u : Str) (hp : ')' ∉ u) :
    linkTargetTail (u ++ [')']) = true := by
  induction u with
  | nil => rfl
  | cons x xs ih =>
    have hx : (x != ')') = true := by
      simp only [bne_iff_ne, ne_eq]
      exact fun hxe => hp (hxe ▸ List.mem_cons_self x xs)
    have hxs : ')' ∉ xs := fun hm => hp (List.mem_cons_of_mem x hm)
    have hih := ih hxs
    rw [List.cons_append]
    cases hxx : xs ++ [')'] with
    | nil => exact absurd hxx (by simp)
    | cons y ys =>
      rw [hxx] at hih
      rw [show linkTargetTail (x :: y :: ys) = ((x != ')') && linkTargetTail (y :: ys)) from
        rfl]
      rw [hih, hx]
      rfl

theorem linkTarget_append (t : Str) (ht : t ≠ []) (hp : ')' ∉ t) :
    linkTarget (t ++ [')']) = true := by
  cases t with
  | nil => exact absurd rfl ht
  | cons t0 t' =>
    have h0 : ¬t0 = ')' := fun hxe => hp (hxe ▸ List.mem_cons_self t0 t')
    have h0' : (t0 != ')') = true := by simp [bne_iff_ne, h0]
    have ht' : ')' ∉ t' := fun hm => hp (List.mem_cons_of_mem t0 hm)
    rw [List.cons_append]
    simp only [linkTarget]
    rw [linkTargetTail_append t' ht', h0']
    rfl

theorem idChar_mkClaimId (L : Str) (a b c d e f g : Char)
    (hLu : ∀ ch ∈ L, isAsciiUpper ch = true)
    (ha : isAsciiDigit a = true) (hb : isAsciiDigit b = true)
    (hc : isAsciiDigit c = true) (hd : isAsciiDigit d = true)
    (he : isAsciiDigit e = true) (hf : isAsciiDigit f = true)
    (hg : isAsciiDigit g = true) :
    ∀ ch ∈ mkClaimId L a b c d e f g, idChar ch = true := by
  intro ch hch
  unfold mkClaimId at hch
  rcases List.mem_append.mp hch with hchL | hchR
  · simp [idChar, hLu ch hchL]
  · simp only [List.mem_cons, List.not_mem_nil, or_false] at hchR
    rcases hchR with rfl | rfl | rfl | rfl | rfl | rfl | rfl | rfl | rfl <;>
      simp [idChar, ha, hb, hc, hd, he, hf, hg]

theorem matchesBare_mkLinked (X t : Str) :
    matchesBareClaimId (mkLinked X t) = false := by
  have hshape : mkLinked X t = '[' :: (X ++ ']' :: '(' :: (t ++ [')'])) := by
    simp [mkLinked]
  rw [hshape]
  simp [matchesBareClaimId, List.takeWhile_cons, isAsciiUpper]

theorem matchesLinked_mkLinked (X t : Str) (hid : ∀ ch ∈ X, idChar ch = true)
    (hbare : matchesBareClaimId X = true) (ht : t ≠ []) (hp : ')' ∉ t) :
    matchesLinkedClaimId (mkLinked X t) = some X := by
  have hshape : mkLinked X t = '[' :: (X ++ ']' :: ('(' :: (t ++ [')']))) := by
    simp [mkLinked]
  rw [hshape]
  have htw := takeWhile_app_cons idChar X ']' ('(' :: (t ++ [')'])) hid (by decide)
  simp only [matchesLinkedClaimId]
  rw [htw.1, htw.2]
  simp [hbare, linkTarget_append t ht hp]

theorem stripSMW_mkLinked (X t : Str) :
    pyStrip (mkLinked X t) = mkLinked X t ∧
    stripWrappersStep (mkLinked X t) = none := by
  have hshape : mkLinked X t = '[' :: (X ++ ']' :: '(' :: (t ++ [')'])) := by
    simp [mkLinked]
  constructor
  · apply pyStrip_eq_self
    · intro ch hch
      rw [hshape] at hch
      cases hch
      decide
    · intro ch hch
      rw [show mkLinked X t = (('[' :: X) ++ (']' :: '(' :: t)) ++ [')'] from by
        simp [mkLinked], List.getLast?_concat] at hch
      cases hch
      decide
  · rw [hshape]
    exact stripWrappersStep_none_of_head '[' _ (by decide) (by decide) (by decide)

theorem pyStrip_wrap (m inner : Str) (hmem : m ∈ markdownWrapperMarkers) :
    pyStrip (m ++ inner ++ m) = m ++ inner ++ m := by
  simp only [markdownWrapperMarkers, List.mem_cons, List.not_mem_nil, or_false] at hmem
  apply pyStrip_eq_self
  · intro ch hch
    rcases hmem with rfl | rfl | rfl | rfl | rfl <;>
      (simp only [List.cons_append, List.head?_cons] at hch; cases hch; decide)
  · intro ch hch
    rcases hmem with rfl | rfl | rfl | rfl | rfl <;>
      (rw [List.getLast?_append_of_ne_nil _ (by simp)] at hch;
       simp only [List.getLast?] at hch; cases hch; decide)

/-- Apply one symmetric markdown wrapper (or none) to a cell text. -/
def applyWrapper : Option Str → Str → Str
  | none, s => s
  | some m, s => m ++ s ++ m

/-- Optionally wrap an id in a markdown link with the given target. -/
def applyLink : Option Str → Str → Str
  | none, x => x
  | some t, x => mkLinked x t

/-- **C5 (amended)**: round-trip claim-ID extraction.  For every valid id
`X` of shape `LETTERS-YYYY-NNN`, every choice of zero or one symmetric
wrapper from `{**, __, `, *, _}`, and every optional markdown link
`[X](t)` whose target `t` is non-empty and free of `)` (the linked-id
pattern's target is `[^)]+`, so a target that is empty or contains `)`
does not round-trip — see the counterexample), `extract_claim_id` returns
exactly `X`. -/
theorem extract_claim_id_round_trip (L : Str) (a b c d e f g : Char)
    (w lk : Option Str)
    (hL : L ≠ []) (hLu : ∀ ch ∈ L, isAsciiUpper ch = true)
    (ha : isAsciiDigit a = true) (hb : isAsciiDigit b = true)
    (hc : isAsciiDigit c = true) (hd : isAsciiDigit d = true)
    (he : isAsciiDigit e = true) (hf : isAsciiDigit f = true)
    (hg : isAsciiDigit g = true)
    (hw : w = none ∨ w ∈ markdownWrapperMarkers.map some)
    (hlk : ∀ t, lk = some t → t ≠ [] ∧ ')' ∉ t) :
    extractClaimId (applyWrapper w (applyLink lk (mkClaimId L a b c d e f g))) =
      some (mkClaimId L a b c d e f g) := by
  have hbareX := matchesBare_mkClaimId L a b c d e f g hL hLu ha hb hc hd he hf hg
  have hstripX := stripSMW_mkClaimId L a b c d e f g hL hLu hg
  obtain ⟨l0, L', hLeq, hXeq⟩ := mkClaimId_head L a b c d e f g hL
  have hl0 : isAsciiUpper l0 = true := hLu l0 (by rw [hLeq]; exact List.mem_cons_self l0 L')
  -- facts about the (possibly linked) inner text
  have hinner : ∃ inner, applyLink lk (mkClaimId L a b c d e f g) = inner ∧
      inner ≠ [] ∧ pyStrip inner = inner ∧ stripWrappersStep inner = none ∧
      (∀ hc0, inner.head? = some hc0 →
        ('*' == hc0) = false ∧ ('_' == hc0) = false ∧ ('`' == hc0) = false) ∧
      (if matchesBareClaimId inner then some inner else matchesLinkedClaimId inner) =
        some (mkClaimId L a b c d e f g) := by
    cases lk with
    | none =>
      refine ⟨mkClaimId L a b c d e f g, rfl, ?_, hstripX.1, hstripX.2, ?_, ?_⟩
      · rw [hXeq]; simp
      · intro hc0 hhc0
        rw [hXeq] at hhc0
        cases hhc0
        exact ⟨beq_false_of_upper hl0 (by decide), beq_false_of_upper hl0 (by decide),
          beq_false_of_upper hl0 (by decide)⟩
      · simp [hbareX]
    | some t =>
      obtain ⟨ht, hp⟩ := hlk t rfl
      have hlink := matchesLinked_mkLinked (mkClaimId L a b c d e f g) t
        (idChar_mkClaimId L a b c d e f g hLu ha hb hc hd he hf hg) hbareX ht hp
      have hsl := stripSMW_mkLinked (mkClaimId L a b c d e f g) t
      refine ⟨mkLinked (mkClaimId L a b c d e f g) t, rfl, by simp [mkLinked],
        hsl.1, hsl.2, ?_, ?_⟩
      · intro hc0 hhc0
        rw [show mkLinked (mkClaimId L a b c d e f g) t =
          '[' :: ((mkClaimId L a b c d e f g) ++ ']' :: '(' :: (t ++ [')'])) from by
            simp [mkLinked]] at hhc0
        cases hhc0
        exact ⟨by decide, by decide, by decide⟩
      · rw [matchesBare_mkLinked, hlink]
        simp
  obtain ⟨inner, hinnereq, hne, hps, hstep, hhd, hmatch⟩ := hinner
  rw [hinnereq]
  cases w with
  | none =>
    show extractClaimId inner = _
    unfold extractClaimId stripSimpleMarkdownWrappers
    rw [hps, stripLoop_of_step_none hstep]
    exact hmatch
  | some m =>
    have hmem : m ∈ markdownWrapperMarkers := by
      rcases hw with hwn | hwm
      · cases hwn
      · rcases List.mem_map.mp hwm with ⟨m', hm', heq⟩
        cases heq
        exact hm'
    show extractClaimId (m ++ inner ++ m) = _
    unfold extractClaimId stripSimpleMarkdownWrappers
    rw [pyStrip_wrap m inner hmem, stripLoop_wrap m inner hmem hne hps hstep hhd]
    exact hmatch

/-- **C5 counterexample**: with link target `a)b` — an "anything" per the
claim — the linked pattern `[X](...)` fails (`[^)]+\)` forbids `)` inside
the target), so extraction returns `none` instead of the id. -/
theorem extract_claim_id_paren_target_counterexample :
    extractClaimId (strL "[TECH-2026-001](a)b)") = none ∧
    extractClaimId (strL "[TECH-2026-001]()") = none := by
  constructor
  · decide
  · decide

/-- **C5 witness**: `**[TECH-2026-001](x.md)**` round-trips to
`TECH-2026-001`. -/
theorem extract_claim_id_round_trip_witness :
    extractClaimId (strL "**[TECH-2026-001](x.md)**") =
      some (strL "TECH-2026-001") := by
  have hshape : strL "**[TECH-2026-001](x.md)**" =
      applyWrapper (some (strL "**"))
        (applyLink (some (strL "x.md")) (mkClaimId (strL "TECH") '2' '0' '2' '6' '0' '0' '1')) := by
    decide
  have hid : strL "TECH-2026-001" = mkClaimId (strL "TECH") '2' '0' '2' '6' '0' '0' '1' := by
    decide
  rw [hshape, hid]
  exact extract_claim_id_round_trip (strL "TECH") '2' '0' '2' '6' '0' '0' '1'
    (some (strL "**")) (some (strL "x.md")) (by decide) (by decide) (by decide) (by decide)
    (by decide) (by decide) (by decide) (by decide) (by decide)
    (Or.inr (by decide))
    (fun t h => by cases h; exact ⟨by decide, by decide⟩)
